import Mathlib

/-!
# sultans-case-study: a shallow embedding

The repository is a sequential command-line tool: a GraphQL transport client
(`pkg/shopify/client.go`), a customer leaderboard export
(`tasks/task1/customer_leaderboard.go`) and a three-step "capture the flag"
workflow (`tasks/task2/capture_flag.go`).

Conventions of the embedding:

* a Go `error` is an `Option String` holding the text of `Error()`; `none` is `nil`;
  `fmt.Errorf("ctx: %w", err)` is string concatenation;
* a Go function returning `(*T, error)` where both may be non-nil returns a pair of options;
* everything outside the repository that the code calls (JSON codec, HTTP round trip,
  `strconv.ParseFloat`, `%.2f` formatting, file creation, errors of the file writes) is a
  field of `Platform`, and every theorem holds for every platform;
* effects are explicit: `World` records the HTTP requests handed to the HTTP client,
  the `fmt.Printf` calls, the records handed to the CSV writer, and the text of the file
  when every write and the closing flush succeeded;
* the bytes the default `csv.Writer` emits for those records, and the default `csv.Reader`
  that reads them back, are modelled after `encoding/csv`.

The definitions come first: the data, the platform, the three source files, the CSV codec,
then one concrete platform and the data of the concrete runs. The theorems follow.
-/

namespace Shopify

/-! ## pkg/shopify/client.go -/

/-- Mirror of `type Config struct`. -/
structure Config where
  ShopifyURL : String
  AccessToken : String
  UserEmail : String
  StorePassword : String
deriving DecidableEq, Repr

/-- Scalar values the workflows put into `map[string]interface{}`. -/
inductive Scalar where
  | str (s : String)
  | int (n : Int)
  | bool (b : Bool)
deriving DecidableEq, Repr

/-- Values of the `variables` map: a scalar or one nested map of scalars. -/
inductive JSONValue where
  | scalar (v : Scalar)
  | obj (fields : List (String × Scalar))
deriving DecidableEq, Repr

/-- Mirror of `type GraphQLRequest struct`. -/
structure GraphQLRequest where
  Query : String
  Variables : List (String × JSONValue)
deriving DecidableEq, Repr

/-- One entry of `Locations` in a GraphQL error descriptor. -/
structure ErrorLocation where
  Line : Int
  Column : Int
deriving DecidableEq, Repr

/-- One entry of `GraphQLResponse.Errors`. -/
structure GraphQLError where
  Message : String
  Locations : List ErrorLocation
  Path : List Scalar
deriving DecidableEq, Repr

/-- Mirror of `type GraphQLResponse struct`; `Data` is the `json.RawMessage` bytes
(empty when the field is absent). -/
structure GraphQLResponse where
  Data : String
  Errors : List GraphQLError
deriving DecidableEq, Repr

/-- The `context.Context` a request is created with. -/
inductive Context where
  | background
  | withTimeout (seconds : Nat)
deriving DecidableEq, Repr

/-- The request handed to `httpClient.Do`. -/
structure HttpRequest where
  ctx : Context
  method : String
  url : String
  headers : List (String × String)
  body : String
deriving DecidableEq, Repr

/-- What `httpClient.Do` yields when it does not fail: status code and body bytes. -/
structure HttpResponse where
  StatusCode : Int
  Body : String
deriving DecidableEq, Repr

/-- Mirror of `type Client struct` (the `*http.Client` is the platform's `roundTrip`). -/
structure Client where
  endpoint : String
  config : Config
deriving DecidableEq, Repr

/-! ## tasks/task1: decoded response shape and record type -/

/-- Field `defaultEmailAddress` of a customer node. -/
structure DefaultEmailAddress where
  EmailAddress : String
deriving DecidableEq, Repr

/-- Field `amountSpent` of a customer node. -/
structure AmountSpentNode where
  Amount : String
  CurrencyCode : String
deriving DecidableEq, Repr

/-- A decoded customer node. -/
structure CustomerNode where
  ID : String
  FirstName : String
  LastName : String
  DefaultEmailAddress : DefaultEmailAddress
  AmountSpent : AmountSpentNode
deriving DecidableEq, Repr

/-- An element of `edges`. -/
structure CustomerEdge where
  Node : CustomerNode
deriving DecidableEq, Repr

/-- Field `customerSegmentMembers` of the decoded result. -/
structure CustomerSegmentMembers where
  Edges : List CustomerEdge
deriving DecidableEq, Repr

/-- The anonymous `result` struct of `fetchFilteredCustomers`. -/
structure SegmentResult where
  CustomerSegmentMembers : CustomerSegmentMembers
deriving DecidableEq, Repr

/-- Mirror of `type Customer struct`; `F` stands for `float64`. -/
structure Customer (F : Type) where
  ID : String
  FirstName : String
  LastName : String
  Email : String
  AmountSpent : F
  Currency : String
deriving DecidableEq, Repr

/-! ## tasks/task2: decoded response shapes and record type -/

/-- Mirror of `type ProductInfo struct`. -/
structure ProductInfo where
  ProductID : String
  Title : String
  Handle : String
  VariantID : String
  InventoryItemID : String
deriving DecidableEq, Repr

/-- Field `inventoryItem` of a variant node. -/
structure InventoryItemRef where
  ID : String
deriving DecidableEq, Repr

/-- A decoded variant node. -/
structure VariantNode where
  ID : String
  InventoryItem : InventoryItemRef
deriving DecidableEq, Repr

/-- An element of `variants.edges`. -/
structure VariantEdge where
  Node : VariantNode
deriving DecidableEq, Repr

/-- Field `variants` of the product. -/
structure Variants where
  Edges : List VariantEdge
deriving DecidableEq, Repr

/-- Field `product` of the lookup result. -/
structure ProductNode where
  ID : String
  Title : String
  Handle : String
  Variants : Variants
deriving DecidableEq, Repr

/-- The anonymous `result` struct of `findProductByHandle`. -/
structure ProductResult where
  Product : ProductNode
deriving DecidableEq, Repr

/-- An element of `userErrors`. -/
structure UserError where
  Field : String
  Message : String
deriving DecidableEq, Repr

/-- Field `inventoryItemUpdate` of the mutation result. -/
structure InventoryItemUpdate where
  UserErrors : List UserError
deriving DecidableEq, Repr

/-- The anonymous `result` struct of `disableInventoryTracking`. -/
structure MutationResult where
  InventoryItemUpdate : InventoryItemUpdate
deriving DecidableEq, Repr

/-- Field `variant` of a line item. -/
structure VariantRef where
  ID : String
deriving DecidableEq, Repr

/-- A decoded line-item node. -/
structure LineItemNode where
  Variant : VariantRef
deriving DecidableEq, Repr

/-- An element of `lineItems.edges`. -/
structure LineItemEdge where
  Node : LineItemNode
deriving DecidableEq, Repr

/-- Field `lineItems` of an order. -/
structure LineItems where
  Edges : List LineItemEdge
deriving DecidableEq, Repr

/-- A decoded order node. -/
structure OrderNode where
  ID : String
  Name : String
  Email : String
  LineItems : LineItems
deriving DecidableEq, Repr

/-- An element of `orders.edges`. -/
structure OrderEdge where
  Node : OrderNode
deriving DecidableEq, Repr

/-- Field `orders` of the search result. -/
structure Orders where
  Edges : List OrderEdge
deriving DecidableEq, Repr

/-- The anonymous `result` struct of `findFlagOrders`. -/
structure OrdersResult where
  Orders : Orders
deriving DecidableEq, Repr

/-! ## The platform and the observable world -/

/-- Everything the repository calls but does not define. `F` is `float64`.
The theorems quantify over every platform. -/
structure Platform (F : Type) where
  /-- The call `json.Marshal(request)`. -/
  jsonMarshal : GraphQLRequest → Except String String
  /-- The error of `http.NewRequestWithContext(ctx, method, url, body)`, `none` when it builds. -/
  newRequestErr : String → String → Option String
  /-- The call `httpClient.Do(req)`: requests handed over earlier, then this request. -/
  roundTrip : List HttpRequest → HttpRequest → Except String HttpResponse
  /-- The call `json.NewDecoder(resp.Body).Decode(&response)`. -/
  decodeResponse : String → Except String GraphQLResponse
  /-- The rendering of `response.Errors` under `%v`. -/
  sprintErrors : List GraphQLError → String
  /-- The call `json.Unmarshal(response.Data, &result)` in `fetchFilteredCustomers`. -/
  unmarshalSegment : String → Except String SegmentResult
  /-- The call `json.Unmarshal(response.Data, &result)` in `findProductByHandle`. -/
  unmarshalProduct : String → Except String ProductResult
  /-- The call `json.Unmarshal(response.Data, &result)` in `disableInventoryTracking`. -/
  unmarshalMutation : String → Except String MutationResult
  /-- The call `json.Unmarshal(response.Data, &result)` in `findFlagOrders`. -/
  unmarshalOrders : String → Except String OrdersResult
  /-- The call `strconv.ParseFloat(s, 64)`; only its error is inspected by the code. -/
  parseFloat : String → Except String F
  /-- The call `fmt.Sprintf("%.2f", x)`. -/
  sprintf2f : F → String
  /-- The error of `os.Create(filename)`, `none` when the file is created. -/
  createErr : String → Option String
  /-- The error of `writer.Write(record)`: records handed over earlier, then this record. -/
  writeErr : List (List String) → List String → Option String
  /-- The error the deferred `writer.Flush()` meets, given the records handed over; the code
  never reads it. -/
  flushErr : List (List String) → Option String

/-- What a run leaves behind that an observer can see. -/
structure World where
  /-- Requests handed to `httpClient.Do`, oldest first. -/
  sent : List HttpRequest
  /-- One entry per `fmt.Printf` call, oldest first. -/
  stdout : List String
  /-- The file created by `os.Create` and the records handed to its CSV writer. -/
  csvFile : Option (String × List (List String))
  /-- The text of that file once the deferred `Flush` and `Close` have run, when every write
  and the flush succeeded; nothing is known of it otherwise. -/
  fileText : Option (List Char)
deriving DecidableEq, Repr

/-- The world before the program does anything. -/
def World.init : World := ⟨[], [], none, none⟩

/-- One `fmt.Printf` call. -/
def World.printf (w : World) (s : String) : World :=
  { w with stdout := w.stdout ++ [s] }

/-- Function `NewClient`; `getenv` is `os.Getenv` after `godotenv.Load()`. -/
def NewClient (getenv : String → String) : Except String Client :=
  let config : Config :=
    { ShopifyURL := getenv "SHOPIFY_URL"
      AccessToken := getenv "SHOPIFY_ACCESS_TOKEN"
      UserEmail := getenv "SHOPIFY_USER_EMAIL"
      StorePassword := getenv "SHOPIFY_STORE_PASSWORD" }
  if config.ShopifyURL = "" ∨ config.AccessToken = "" then
    .error ("missing required environment variables: "
      ++ "SHOPIFY_URL and SHOPIFY_ACCESS_TOKEN are required")
  else
    let endpoint := config.ShopifyURL ++ "/admin/api/2025-01/graphql.json"
    .ok { endpoint := endpoint, config := config }

/-- The request `GraphQL` builds: `POST` to the endpoint with the two headers set. -/
def Client.newRequest (c : Client) (ctx : Context) (requestBody : String) : HttpRequest :=
  ⟨ctx, "POST", c.endpoint,
    [("Content-Type", "application/json"),
     ("X-Shopify-Access-Token", c.config.AccessToken)],
    requestBody⟩

/-- Method `(c *Client) GraphQL`. The result pairs the returned `*GraphQLResponse`
with the returned `error`. -/
def Client.GraphQL {F : Type} (P : Platform F) (c : Client) (ctx : Context) (query : String)
    (vars : List (String × JSONValue)) (w : World) :
    (Option GraphQLResponse × Option String) × World :=
  let request : GraphQLRequest := ⟨query, vars⟩
  match P.jsonMarshal request with
  | .error err => ((none, some ("failed to marshal request: " ++ err)), w)
  | .ok requestBody =>
    match P.newRequestErr "POST" c.endpoint with
    | some err => ((none, some ("failed to create request: " ++ err)), w)
    | none =>
      let req := c.newRequest ctx requestBody
      let w1 : World := { w with sent := w.sent ++ [req] }
      match P.roundTrip w.sent req with
      | .error err => ((none, some ("failed to send request: " ++ err)), w1)
      | .ok resp =>
        if resp.StatusCode ≠ 200 then
          ((none, some ("API request failed with status " ++ toString resp.StatusCode
            ++ ": " ++ resp.Body)), w1)
        else
          match P.decodeResponse resp.Body with
          | .error err => ((none, some ("failed to decode response: " ++ err)), w1)
          | .ok response =>
            if response.Errors.length > 0 then
              ((some response, some ("GraphQL errors: " ++ P.sprintErrors response.Errors)), w1)
            else
              ((some response, none), w1)

/-- Method `(c *Client) GetConfig`. -/
def Client.GetConfig (c : Client) : Config := c.config

/-! ## encoding/csv: the writer

The export writes through a default `csv.Writer` (`Comma = ','`, `UseCRLF = false`). Texts
are lists of characters: every delimiter is ASCII, so on valid UTF-8 the byte-wise scans of
the library and these character-wise scans cut at the same places. -/

/-- The field delimiter `Comma` of a default writer and reader. -/
def csvComma : Char := Char.ofNat 44

/-- The double quote. -/
def csvQuote : Char := Char.ofNat 34

/-- Carriage return. -/
def csvCR : Char := Char.ofNat 13

/-- Line feed. -/
def csvLF : Char := Char.ofNat 10

/-- Function `unicode.IsSpace`. -/
def isSpace (c : Char) : Bool :=
  let n := c.toNat
  (9 ≤ n && n ≤ 13) || n == 32 || n == 0x85 || n == 0xA0 || n == 0x1680 ||
    (0x2000 ≤ n && n ≤ 0x200a) || n == 0x2028 || n == 0x2029 || n == 0x202f ||
    n == 0x205f || n == 0x3000

/-- Method `(w *Writer) fieldNeedsQuotes` for `Comma = ','`. -/
def fieldNeedsQuotes (field : List Char) : Bool :=
  match field with
  | [] => false
  | r1 :: _ =>
    if field = [Char.ofNat 92, Char.ofNat 46] then true
    else if field.any (fun c => c == csvLF || c == csvCR || c == csvQuote || c == csvComma) then
      true
    else isSpace r1

/-- The body of a quoted field as `Write` emits it with `UseCRLF = false`: a quote is doubled,
carriage return and line feed are written as they are, and so is everything else. -/
def writeQuoted : List Char → List Char
  | [] => []
  | c :: field =>
    if c = csvQuote then csvQuote :: csvQuote :: writeQuoted field
    else if c = csvCR then csvCR :: writeQuoted field
    else if c = csvLF then csvLF :: writeQuoted field
    else c :: writeQuoted field

/-- What `Write` emits for one field. -/
def writeField (field : List Char) : List Char :=
  if fieldNeedsQuotes field then csvQuote :: (writeQuoted field ++ [csvQuote]) else field

/-- What `Write` emits for the fields from index `n` of a record on: a comma before every
field but the first of the record. -/
def writeFields : Nat → List (List Char) → List Char
  | _, [] => []
  | n, field :: rest =>
    (if n > 0 then [csvComma] else []) ++ writeField field ++ writeFields (n + 1) rest

/-- Method `(w *Writer) Write`: the bytes one record adds to the output. -/
def Writer.Write (record : List String) : List Char :=
  writeFields 0 (record.map String.data) ++ [csvLF]

/-- The text of a file to whose writer the given records were handed, in order. -/
def csvText (records : List (List String)) : List Char :=
  records.flatMap Writer.Write

/-! ## tasks/task1/customer_leaderboard.go -/

/-- The query text of `fetchFilteredCustomers`. -/
def segmentQuery : String :=
  "\n\t\tquery GetCustomerSegmentMembers($first: Int!, $query: String!, $sortKey: String, $reverse: Boolean!) \x7b\n\t\t\tcustomerSegmentMembers(first: $first, query: $query, sortKey: $sortKey, reverse: $reverse) \x7b\n\t\t\t\tedges \x7b\n\t\t\t\t\tnode \x7b\n\t\t\t\t\t\tid\n\t\t\t\t\t\tfirstName\n\t\t\t\t\t\tlastName\n\t\t\t\t\t\tdefaultEmailAddress \x7b\n\t\t\t\t\t\t\temailAddress\n\t\t\t\t\t\t\x7d\n\t\t\t\t\t\tamountSpent \x7b\n\t\t\t\t\t\t\tamount\n\t\t\t\t\t\t\tcurrencyCode\n\t\t\t\t\t\t\x7d\n\t\t\t\t\t\x7d\n\t\t\t\t\x7d\n\t\t\t\x7d\n\t\t\x7d\n\t"

/-- The `variables` map of `fetchFilteredCustomers`. -/
def segmentVariables : List (String × JSONValue) :=
  [("first", .scalar (.int 50)),
   ("query", .scalar (.str "customer_tags CONTAINS 'task1' AND customer_tags CONTAINS 'level:3'")),
   ("sortKey", .scalar (.str "amount_spent")),
   ("reverse", .scalar (.bool true))]

/-- The `for _, edge := range ...Edges` loop of `fetchFilteredCustomers`: `customers` is the
slice built so far. -/
def fetchLoop {F : Type} (P : Platform F) :
    List CustomerEdge → List (Customer F) → World → List (Customer F) × World
  | [], customers, w => (customers, w)
  | edge :: rest, customers, w =>
    let node := edge.Node
    match P.parseFloat node.AmountSpent.Amount with
    | .error err =>
      fetchLoop P rest customers
        (w.printf ("Warning: failed to parse amount for customer " ++ node.ID ++ ": " ++ err ++ "\n"))
    | .ok amountSpent =>
      fetchLoop P rest
        (customers ++ [{ ID := node.ID, FirstName := node.FirstName, LastName := node.LastName,
                         Email := node.DefaultEmailAddress.EmailAddress,
                         AmountSpent := amountSpent,
                         Currency := node.AmountSpent.CurrencyCode }])
        w

/-- Function `fetchFilteredCustomers`. -/
def fetchFilteredCustomers {F : Type} (P : Platform F) (ctx : Context) (client : Client)
    (w : World) : Except String (List (Customer F)) × World :=
  match client.GraphQL P ctx segmentQuery segmentVariables w with
  | ((_, some err), w1) => (.error ("GraphQL query failed: " ++ err), w1)
  | ((none, none), w1) => (.error "panic: nil pointer dereference", w1)
  | ((some response, none), w1) =>
    match P.unmarshalSegment response.Data with
    | .error err => (.error ("failed to parse response: " ++ err), w1)
    | .ok result =>
      let (customers, w2) := fetchLoop P result.CustomerSegmentMembers.Edges [] w1
      (.ok customers, w2)

/-- The header row of the leaderboard file. -/
def csvHeader : List String :=
  ["Rank", "Customer ID", "First Name", "Last Name", "Email", "Amount Spent", "Currency"]

/-- The `record` built for the customer at index `i` of the slice. -/
def csvRecord {F : Type} (P : Platform F) (i : Nat) (customer : Customer F) : List String :=
  [toString (i + 1),
   customer.ID,
   customer.FirstName,
   customer.LastName,
   customer.Email,
   P.sprintf2f customer.AmountSpent,
   customer.Currency]

/-- The `for i, customer := range customers` loop of `exportToCSV`: `i` is the index of the
head of the list, `rows` the records handed to the writer so far. -/
def exportLoop {F : Type} (P : Platform F) :
    List (Customer F) → Nat → List (List String) → Option String × List (List String)
  | [], _, rows => (none, rows)
  | customer :: rest, i, rows =>
    let record := csvRecord P i customer
    match P.writeErr rows record with
    | some err => (some ("failed to write CSV record: " ++ err), rows ++ [record])
    | none => exportLoop P rest (i + 1) (rows ++ [record])

/-- The deferred `writer.Flush()` and `file.Close()` of `exportToCSV`: they leave the records
handed to the writer, and the text of the file when no write failed and the flush does not
fail. Their errors are not read. -/
def World.closeCSV {F : Type} (P : Platform F) (w : World) (filename : String)
    (rows : List (List String)) (writeFailed : Bool) : World :=
  { w with
    csvFile := some (filename, rows)
    fileText :=
      if writeFailed then none
      else
        match P.flushErr rows with
        | some _ => none
        | none => some (csvText rows) }

/-- Function `exportToCSV`. -/
def exportToCSV {F : Type} (P : Platform F) (customers : List (Customer F)) (filename : String)
    (w : World) : Option String × World :=
  match P.createErr filename with
  | some err => (some ("failed to create CSV file: " ++ err), w)
  | none =>
    let header := csvHeader
    match P.writeErr [] header with
    | some err =>
      (some ("failed to write CSV header: " ++ err), w.closeCSV P filename [header] true)
    | none =>
      match exportLoop P customers 0 [header] with
      | (some err, rows) => (some err, w.closeCSV P filename rows true)
      | (none, rows) =>
        (none, (w.printf
          ("Exported " ++ toString customers.length ++ " customers to " ++ filename ++ "\n")).closeCSV
            P filename rows false)

/-- Function `GenerateCustomerLeaderboard`. -/
def GenerateCustomerLeaderboard {F : Type} (P : Platform F) (client : Client) (w : World) :
    Option String × World :=
  let ctx := Context.withTimeout 5
  match fetchFilteredCustomers P ctx client w with
  | (.error err, w1) => (some ("failed to fetch customers: " ++ err), w1)
  | (.ok customers, w1) =>
    if customers.length = 0 then
      (some "no customers found with required tags", w1)
    else
      let topCustomers := if customers.length > 50 then customers.take 50 else customers
      exportToCSV P topCustomers "top_50_customers.csv" w1

/-! ## tasks/task2/capture_flag.go -/

/-- The query text of `findProductByHandle`. -/
def productQuery : String :=
  "\n\t\tquery GetProductByHandle($handle: String!) \x7b\n\t\t\tproduct: productByHandle(handle: $handle) \x7b\n\t\t\t\tid\n\t\t\t\ttitle\n\t\t\t\thandle\n\t\t\t\tvariants(first: 1) \x7b\n\t\t\t\t\tedges \x7b\n\t\t\t\t\t\tnode \x7b\n\t\t\t\t\t\t\tid\n\t\t\t\t\t\t\tinventoryItem \x7b\n\t\t\t\t\t\t\t\tid\n\t\t\t\t\t\t\t\x7d\n\t\t\t\t\t\t\x7d\n\t\t\t\t\t\x7d\n\t\t\t\t\x7d\n\t\t\t\x7d\n\t\t\x7d\n\t"

/-- The mutation text of `disableInventoryTracking`. -/
def inventoryMutation : String :=
  "\n\t\tmutation UpdateInventoryItem($id: ID!, $input: InventoryItemInput!) \x7b\n\t\t\tinventoryItemUpdate(id: $id, input: $input) \x7b\n\t\t\t\tinventoryItem \x7b\n\t\t\t\t\tid\n\t\t\t\t\ttracked\n\t\t\t\t\x7d\n\t\t\t\tuserErrors \x7b\n\t\t\t\t\tfield\n\t\t\t\t\tmessage\n\t\t\t\t\x7d\n\t\t\t\x7d\n\t\t\x7d\n\t"

/-- The query text of `findFlagOrders`. -/
def ordersQuery : String :=
  "\n\t\tquery GetOrdersByEmail($first: Int!, $query: String!) \x7b\n\t\t\torders(first: $first, query: $query) \x7b\n\t\t\t\tedges \x7b\n\t\t\t\t\tnode \x7b\n\t\t\t\t\t\tid\n\t\t\t\t\t\tname\n\t\t\t\t\t\temail\n\t\t\t\t\t\tlineItems(first: 10) \x7b\n\t\t\t\t\t\t\tedges \x7b\n\t\t\t\t\t\t\t\tnode \x7b\n\t\t\t\t\t\t\t\t\tvariant \x7b\n\t\t\t\t\t\t\t\t\t\tid\n\t\t\t\t\t\t\t\t\t\x7d\n\t\t\t\t\t\t\t\t\x7d\n\t\t\t\t\t\t\t\x7d\n\t\t\t\t\t\t\x7d\n\t\t\t\t\t\x7d\n\t\t\t\t\x7d\n\t\t\t\x7d\n\t\t\x7d\n\t"

/-- The `variables` map of `findProductByHandle`. -/
def productVariables (handle : String) : List (String × JSONValue) :=
  [("handle", .scalar (.str handle))]

/-- The `variables` map of `disableInventoryTracking`. -/
def mutationVariables (inventoryItemID : String) : List (String × JSONValue) :=
  [("id", .scalar (.str inventoryItemID)), ("input", .obj [("tracked", .bool false)])]

/-- The `variables` map of `findFlagOrders`. -/
def ordersVariables (userEmail : String) : List (String × JSONValue) :=
  [("first", .scalar (.int 10)), ("query", .scalar (.str ("email:" ++ userEmail)))]

/-- Function `findProductByHandle`. -/
def findProductByHandle {F : Type} (P : Platform F) (ctx : Context) (client : Client)
    (handle : String) (w : World) : Except String ProductInfo × World :=
  match client.GraphQL P ctx productQuery (productVariables handle) w with
  | ((_, some err), w1) => (.error ("GraphQL query failed: " ++ err), w1)
  | ((none, none), w1) => (.error "panic: nil pointer dereference", w1)
  | ((some response, none), w1) =>
    match P.unmarshalProduct response.Data with
    | .error err => (.error ("failed to parse response: " ++ err), w1)
    | .ok result =>
      if result.Product.ID = "" then
        (.error ("no product found with handle: " ++ handle), w1)
      else
        match result.Product.Variants.Edges with
        | [] => (.error "no variants found for product", w1)
        | edge0 :: _ =>
          let variant := edge0.Node
          (.ok { ProductID := result.Product.ID,
                 Title := result.Product.Title,
                 Handle := result.Product.Handle,
                 VariantID := variant.ID,
                 InventoryItemID := variant.InventoryItem.ID }, w1)

/-- Function `disableInventoryTracking`. -/
def disableInventoryTracking {F : Type} (P : Platform F) (ctx : Context) (client : Client)
    (inventoryItemID : String) (w : World) : Option String × World :=
  match client.GraphQL P ctx inventoryMutation (mutationVariables inventoryItemID) w with
  | ((_, some err), w1) => (some ("GraphQL mutation failed: " ++ err), w1)
  | ((none, none), w1) => (some "panic: nil pointer dereference", w1)
  | ((some response, none), w1) =>
    match P.unmarshalMutation response.Data with
    | .error err => (some ("failed to parse response: " ++ err), w1)
    | .ok result =>
      match result.InventoryItemUpdate.UserErrors with
      | firstError :: _ =>
        (some ("failed to update inventory tracking: " ++ firstError.Message), w1)
      | [] => (none, w1.printf "Inventory tracking disabled\n")

/-- The inner `for _, itemEdge := range orderNode.LineItems.Edges` loop of `findFlagOrders`:
`true` when it reaches the `return nil`. -/
def scanItems (variantID : String) : List LineItemEdge → Bool
  | [] => false
  | itemEdge :: rest =>
    let item := itemEdge.Node
    if item.Variant.ID = variantID then true else scanItems variantID rest

/-- The outer `for _, edge := range result.Orders.Edges` loop of `findFlagOrders`, with the
final `return` after it. -/
def scanOrders (variantID : String) : List OrderEdge → World → Option String × World
  | [], w => (some "no orders found containing the flag product", w)
  | edge :: rest, w =>
    let orderNode := edge.Node
    if scanItems variantID orderNode.LineItems.Edges then
      (none, w.printf ("FLAG CAPTURED! Found order " ++ orderNode.Name ++ " with flag product!\n"))
    else
      scanOrders variantID rest w

/-- Function `findFlagOrders`. -/
def findFlagOrders {F : Type} (P : Platform F) (ctx : Context) (client : Client)
    (variantID userEmail : String) (w : World) : Option String × World :=
  match client.GraphQL P ctx ordersQuery (ordersVariables userEmail) w with
  | ((_, some err), w1) => (some ("GraphQL query failed: " ++ err), w1)
  | ((none, none), w1) => (some "panic: nil pointer dereference", w1)
  | ((some response, none), w1) =>
    match P.unmarshalOrders response.Data with
    | .error err => (some ("failed to parse response: " ++ err), w1)
    | .ok result =>
      if result.Orders.Edges.length = 0 then
        (some ("no orders found for email: " ++ userEmail), w1)
      else
        scanOrders variantID result.Orders.Edges w1

/-- The six `fmt.Printf` calls of the `err != nil` branch of `CaptureTheFlag`, in order. -/
def fallbackLines (config : Config) (err : String) : List String :=
  ["No existing flag orders found: " ++ err ++ "\n",
   "\nTo capture the flag, place an order manually:\n",
   "1. Visit: " ++ config.ShopifyURL ++ " (password: " ++ config.StorePassword ++ ")\n",
   "2. Search for the flag product and add to cart\n",
   "3. Checkout with email: " ++ config.UserEmail ++ "\n",
   "4. Complete the order\n"]

/-- The statement `if err := disableInventoryTracking(...); err != nil { fmt.Printf(...) }`
of `CaptureTheFlag`: the world it leaves. -/
def mutateStep {F : Type} (P : Platform F) (ctx : Context) (client : Client)
    (flagProduct : ProductInfo) (w : World) : World :=
  match disableInventoryTracking P ctx client flagProduct.InventoryItemID w with
  | (some err, w1) => w1.printf ("Warning: Failed to disable inventory tracking: " ++ err ++ "\n")
  | (none, w1) => w1

/-- Function `CaptureTheFlag`. -/
def CaptureTheFlag {F : Type} (P : Platform F) (client : Client) (w : World) :
    Option String × World :=
  let ctx := Context.background
  match findProductByHandle P ctx client "the-videographer-snowboard" w with
  | (.error err, w1) => (some ("failed to find flag product: " ++ err), w1)
  | (.ok flagProduct, w1) =>
    let w2 := w1.printf ("Found flag product: " ++ flagProduct.Title ++ "\n")
    let w3 := mutateStep P ctx client flagProduct w2
    let config := client.GetConfig
    match findFlagOrders P ctx client flagProduct.VariantID config.UserEmail w3 with
    | (some err, w4) =>
      (none, { w4 with stdout := w4.stdout ++ fallbackLines config err })
    | (none, w4) => (none, w4)

/-! ## encoding/csv: the reader

The file is read back through a default `csv.Reader` (`Comma = ','`, no comment character,
`FieldsPerRecord = 0`, `LazyQuotes` and `TrimLeadingSpace` off). -/

/-- The line `readLine` returns on the text `s`, with what is left of `s`: the line is the
text up to the first line feed, without the carriage return that may stand before it. -/
def LineOf (line input s : List Char) : Prop :=
  ∃ l, csvLF ∉ l ∧ line = l ++ [csvLF] ∧
    ((s = l ++ csvLF :: input ∧ l.getLast? ≠ some csvCR) ∨ s = l ++ csvCR :: csvLF :: input)


/-! ## A concrete platform for running the embedding

`Fixture.platform` is one inhabitant of `Platform`: the HTTP client answers from a script
indexed by the number of requests already sent, the JSON decoders are finite tables, and
`float64` is replaced by a count of hundredths. It is used only to evaluate the definitions
on concrete runs. -/

/-- Value of a list of decimal digits, most significant first. -/
def digitsValue (ds : List Char) : Nat :=
  ds.foldl (fun acc d => 10 * acc + (d.toNat - 48)) 0

/-- The stand-in for `strconv.ParseFloat` on the concrete platform: it accepts digits
optionally followed by a point and one or two digits, a part of what `ParseFloat` accepts,
and rejects everything else. The value is returned in hundredths. -/
def parseHundredths (s : String) : Except String Nat :=
  let bad : Except String Nat :=
    .error ("strconv.ParseFloat: parsing \"" ++ s ++ "\": invalid syntax")
  match s.data.span Char.isDigit with
  | ([], _) => bad
  | (ip, []) => .ok (100 * digitsValue ip)
  | (ip, dot :: fp) =>
    if dot = Char.ofNat 46 ∧ fp.all Char.isDigit then
      match fp with
      | [a] => .ok (100 * digitsValue ip + 10 * digitsValue [a])
      | [a, b] => .ok (100 * digitsValue ip + digitsValue [a, b])
      | _ => bad
    else bad

/-- The stand-in for `fmt.Sprintf("%.2f", x)` on the concrete platform: the two-decimal
rendering of a count of hundredths. -/
def formatHundredths (n : Nat) : String :=
  toString (n / 100) ++ "." ++ toString (n % 100 / 10) ++ toString (n % 10)

/-- A table-driven decoder. -/
def decodeWith {α : Type} (table : List (String × α)) (s : String) : Except String α :=
  match table.lookup s with
  | some a => .ok a
  | none => .error "unexpected end of JSON input"

/-- The data of a concrete run: the scripted HTTP outcomes and the decoding tables. -/
structure Fixture where
  script : List (Except String HttpResponse)
  envelopes : List (String × GraphQLResponse)
  segments : List (String × SegmentResult)
  products : List (String × ProductResult)
  mutations : List (String × MutationResult)
  orders : List (String × OrdersResult)

/-- The platform of a fixture. File creation and record writes always succeed. -/
def Fixture.platform (fx : Fixture) : Platform Nat where
  jsonMarshal := fun request => .ok request.Query
  newRequestErr := fun _ _ => none
  roundTrip := fun history _ => fx.script.getD history.length (.error "connection refused")
  decodeResponse := decodeWith fx.envelopes
  sprintErrors := fun errs => toString (errs.map (fun e => e.Message))
  unmarshalSegment := decodeWith fx.segments
  unmarshalProduct := decodeWith fx.products
  unmarshalMutation := decodeWith fx.mutations
  unmarshalOrders := decodeWith fx.orders
  parseFloat := parseHundredths
  sprintf2f := formatHundredths
  createErr := fun _ => none
  writeErr := fun _ _ => none
  flushErr := fun _ => none

/-- A fixture with no HTTP outcome and empty tables. -/
def Fixture.empty : Fixture := ⟨[], [], [], [], [], []⟩

/-- An environment for concrete runs. -/
def sampleEnv (name : String) : String :=
  if name = "SHOPIFY_URL" then "https://shop.example"
  else if name = "SHOPIFY_ACCESS_TOKEN" then "token"
  else if name = "SHOPIFY_USER_EMAIL" then "ops@example.com"
  else if name = "SHOPIFY_STORE_PASSWORD" then "secret"
  else ""

/-- The client `NewClient` builds in that environment. -/
def sampleClient : Client :=
  ⟨"https://shop.example/admin/api/2025-01/graphql.json",
   ⟨"https://shop.example", "token", "ops@example.com", "secret"⟩⟩

/-- An HTTP 200 body carrying both data and one error, with its decoding. -/
def partialEnvelope : String × GraphQLResponse :=
  ("\x7b\"data\":\x7b\"orders\":null\x7d,\"errors\":[\x7b\"message\":\"Throttled\"\x7d]\x7d",
   ⟨"\x7b\"orders\":null\x7d", [⟨"Throttled", [], []⟩]⟩)

/-- A well-formed envelope without errors, with its decoding. -/
def cleanEnvelope : String × GraphQLResponse :=
  ("\x7b\"data\":\x7b\"ok\":true\x7d\x7d", ⟨"\x7b\"ok\":true\x7d", []⟩)

/-- Run for C1: one scripted HTTP 200 answer carrying data and an error. -/
def fixtureErrors : Fixture :=
  { Fixture.empty with
    script := [.ok ⟨200, partialEnvelope.1⟩]
    envelopes := [partialEnvelope] }

/-- Run for C10: a scripted HTTP 201 answer whose body is a well-formed envelope. -/
def fixtureCreated : Fixture :=
  { Fixture.empty with
    script := [.ok ⟨201, cleanEnvelope.1⟩]
    envelopes := [cleanEnvelope] }

/-- Whether `strconv.ParseFloat(amount, 64)` returns a nil error. -/
def validAmount {F : Type} (P : Platform F) (amount : String) : Bool :=
  match P.parseFloat amount with
  | .ok _ => true
  | .error _ => false

/-- The record `fetchLoop` appends for a node, when its amount parses. -/
def keepNode {F : Type} (P : Platform F) (edge : CustomerEdge) : Option (Customer F) :=
  match P.parseFloat edge.Node.AmountSpent.Amount with
  | .ok amountSpent =>
    some { ID := edge.Node.ID, FirstName := edge.Node.FirstName, LastName := edge.Node.LastName,
           Email := edge.Node.DefaultEmailAddress.EmailAddress, AmountSpent := amountSpent,
           Currency := edge.Node.AmountSpent.CurrencyCode }
  | .error _ => none

/-- The text fields of a decoded node that a record copies: id, names, email, currency. -/
def CustomerNode.copied (node : CustomerNode) : String × String × String × String × String :=
  (node.ID, node.FirstName, node.LastName, node.DefaultEmailAddress.EmailAddress,
   node.AmountSpent.CurrencyCode)

/-- The same five text fields of a record. -/
def Customer.copied {F : Type} (c : Customer F) : String × String × String × String × String :=
  (c.ID, c.FirstName, c.LastName, c.Email, c.Currency)

/-- A customer node with the given id and amount text. -/
def sampleNode (id amount : String) : CustomerEdge :=
  ⟨⟨id, "Ada", "Lovelace", ⟨id ++ "@example.com"⟩, ⟨amount, "USD"⟩⟩⟩

/-- Run for C2: the segment query answers with three nodes, the second with a bad amount. -/
def fixtureSegment : Fixture :=
  { Fixture.empty with
    script := [.ok ⟨200, "segment-body"⟩]
    envelopes := [("segment-body", ⟨"segment-data", []⟩)]
    segments := [("segment-data",
      ⟨⟨[sampleNode "c1" "120.00", sampleNode "c2" "bad", sampleNode "c3" "45.50"]⟩⟩)] }

/-- The records of a slice of customers, the head having index `i`. -/
def recordsFrom {F : Type} (P : Platform F) : Nat → List (Customer F) → List (List String)
  | _, [] => []
  | i, customer :: rest => csvRecord P i customer :: recordsFrom P (i + 1) rest

/-- Whether a decoded order has a line item whose variant identifier is the target. -/
def OrderEdge.hasVariant (edge : OrderEdge) (variantID : String) : Prop :=
  ∃ itemEdge ∈ edge.Node.LineItems.Edges, itemEdge.Node.Variant.ID = variantID

/-- The line `findFlagOrders` prints when it finds the target in an order. -/
def successMarker (edge : OrderEdge) : String :=
  "FLAG CAPTURED! Found order " ++ edge.Node.Name ++ " with flag product!\n"

/-- A decoded product with the given variant edges. -/
def sampleProduct (edges : List VariantEdge) : ProductResult :=
  ⟨⟨"gid://shopify/Product/1", "The Videographer Snowboard", "the-videographer-snowboard",
    ⟨edges⟩⟩⟩

/-- Run for C5: the lookup finds the product but it has no variants. -/
def fixtureNoVariants : Fixture :=
  { Fixture.empty with
    script := [.ok ⟨200, "product-body"⟩, .ok ⟨200, "mutation-body"⟩, .ok ⟨200, "orders-body"⟩]
    envelopes := [("product-body", ⟨"product-data", []⟩)]
    products := [("product-data", sampleProduct [])] }

/-- A decoded product with one variant `v1` whose inventory item is `inv1`. -/
def flagProductResult : ProductResult :=
  sampleProduct [⟨⟨"v1", ⟨"inv1"⟩⟩⟩]

/-- A decoded order with the given name and line-item variant identifiers. -/
def sampleOrder (name : String) (variantIDs : List String) : OrderEdge :=
  ⟨⟨"gid://shopify/Order/" ++ name, name, "ops@example.com",
    ⟨variantIDs.map (fun v => ⟨⟨⟨v⟩⟩⟩)⟩⟩⟩

/-- The three scripted answers of a full run: lookup, mutation, search. -/
def fullScript : List (Except String HttpResponse) :=
  [.ok ⟨200, "product-body"⟩, .ok ⟨200, "mutation-body"⟩, .ok ⟨200, "orders-body"⟩]

/-- A full run whose search answer decodes to the given orders. -/
def fixtureOrders (orders : List OrderEdge) : Fixture :=
  { script := fullScript
    envelopes := [("product-body", ⟨"product-data", []⟩),
                  ("mutation-body", ⟨"mutation-data", []⟩),
                  ("orders-body", ⟨"orders-data", []⟩)]
    segments := []
    products := [("product-data", flagProductResult)]
    mutations := [("mutation-data", ⟨⟨[]⟩⟩)]
    orders := [("orders-data", ⟨⟨orders⟩⟩)] }

/-- Run for C6: the second order holds the target as its second line item; the third order
holds it too. -/
def ordersWithMatch : List OrderEdge :=
  [sampleOrder "#1001" ["v9"], sampleOrder "#1002" ["v8", "v1"], sampleOrder "#1003" ["v1"]]

/-- Run for C7: orders are present but none holds the target. -/
def ordersWithoutMatch : List OrderEdge :=
  [sampleOrder "#1001" ["v9"], sampleOrder "#1002" ["v8", "v7"]]

/-- Run for C8: lookup and mutation are answered, the search request meets a dead network. -/
def fixtureSearchDown : Fixture :=
  { fixtureOrders [] with script := fullScript.take 2 }

/-- Run for C8: lookup and mutation are answered, the search request gets HTTP 500. -/
def fixtureSearchRejected : Fixture :=
  { fixtureOrders [] with
    script := fullScript.take 2 ++ [.ok ⟨500, "Internal Server Error"⟩] }

/-- The requests one `GraphQL` call hands to the HTTP client: the built request when the
request body marshals and the request builds, none otherwise. -/
def Client.requestsOf {F : Type} (P : Platform F) (c : Client) (ctx : Context) (query : String)
    (vars : List (String × JSONValue)) : List HttpRequest :=
  match P.jsonMarshal ⟨query, vars⟩ with
  | .error _ => []
  | .ok requestBody =>
    match P.newRequestErr "POST" c.endpoint with
    | some _ => []
    | none => [c.newRequest ctx requestBody]

/-- The single line the mutation step of `CaptureTheFlag` prints, given what
`disableInventoryTracking` returned. -/
def mutationLine (outcome : Option String) : String :=
  match outcome with
  | some err => "Warning: Failed to disable inventory tracking: " ++ err ++ "\n"
  | none => "Inventory tracking disabled\n"

/-- Run for C9: the mutation is answered with two user errors; the search finds the flag. -/
def fixtureUserErrors : Fixture :=
  { fixtureOrders ordersWithMatch with
    script := [.ok ⟨200, "product-body"⟩, .ok ⟨200, "rejected-body"⟩, .ok ⟨200, "orders-body"⟩]
    envelopes := [("product-body", ⟨"product-data", []⟩),
                  ("mutation-body", ⟨"mutation-data", []⟩),
                  ("rejected-body", ⟨"rejected-data", []⟩),
                  ("orders-body", ⟨"orders-data", []⟩)]
    mutations := [("mutation-data", ⟨⟨[]⟩⟩),
                  ("rejected-data",
                    ⟨⟨[⟨"tracked", "Inventory item not found"⟩, ⟨"id", "second message"⟩]⟩⟩)] }

/-- The HTTP client of the run in which the same three requests are answered but the
mutation succeeds. -/
def acceptingRoundTrip : List HttpRequest → HttpRequest → Except String HttpResponse :=
  fun history _ => fullScript.getD history.length (.error "connection refused")

/-- The flag product the sample lookup yields. -/
def sampleFlagProduct : ProductInfo :=
  ⟨"gid://shopify/Product/1", "The Videographer Snowboard", "the-videographer-snowboard",
   "v1", "inv1"⟩

/-- The world of a sample full run just before the search step: lookup and mutation done. -/
def worldBeforeSearch (fx : Fixture) : World :=
  mutateStep fx.platform .background sampleClient sampleFlagProduct
    ((findProductByHandle fx.platform .background sampleClient "the-videographer-snowboard"
        World.init).2.printf ("Found flag product: " ++ sampleFlagProduct.Title ++ "\n"))

set_option maxRecDepth 100000

theorem newClient_sampleEnv : NewClient sampleEnv = .ok sampleClient := by
  rfl

theorem newClient_requires_url_and_token (getenv : String → String)
    (h : getenv "SHOPIFY_URL" = "" ∨ getenv "SHOPIFY_ACCESS_TOKEN" = "") :
    ∃ err, NewClient getenv = .error err := by
  simp [NewClient, h]

/-- C1. An HTTP-200 response whose body decodes to an envelope with a non-empty errors array
makes `GraphQL` return a non-nil error (the aggregate "GraphQL errors" error), whatever the
data field holds, and the decoded response, raw data included, is returned with it. -/
theorem graphql_errors_array_fails {F : Type} (P : Platform F) (c : Client) (ctx : Context)
    (query : String) (vars : List (String × JSONValue)) (w : World)
    (requestBody body : String) (response : GraphQLResponse)
    (hmarshal : P.jsonMarshal ⟨query, vars⟩ = .ok requestBody)
    (hbuild : P.newRequestErr "POST" c.endpoint = none)
    (hdo : P.roundTrip w.sent (c.newRequest ctx requestBody) = .ok ⟨200, body⟩)
    (hdecode : P.decodeResponse body = .ok response)
    (herrors : response.Errors ≠ []) :
    (c.GraphQL P ctx query vars w).1
      = (some response, some ("GraphQL errors: " ++ P.sprintErrors response.Errors)) := by
  have hlen : response.Errors.length > 0 := List.length_pos.mpr herrors
  simp [Client.GraphQL, hmarshal, hbuild, hdo, hdecode, hlen]

/-- Concrete run for C1: status 200, data present, one error "Throttled". -/
theorem graphql_errors_array_fails_witness :
    partialEnvelope.2.Errors ≠ [] ∧
    (sampleClient.GraphQL fixtureErrors.platform .background "query" [] World.init).1
      = (some partialEnvelope.2, some "GraphQL errors: [Throttled]") :=
  ⟨by decide,
   graphql_errors_array_fails fixtureErrors.platform sampleClient .background "query" []
     World.init "query" partialEnvelope.1 partialEnvelope.2 rfl rfl rfl rfl (by decide)⟩

/-- C10. `GraphQL` tests the status code against 200 before it decodes anything: for any
answer whose status differs from 200 (201, 202, 204, ... included), whatever the body would
decode to, it returns a nil response and an error made of the status code and the raw body
text; and it returns a non-nil response only when the HTTP client answered with status
exactly 200 and the body decoded to that response. -/
theorem graphql_success_is_status_200 {F : Type} (P : Platform F) (c : Client) (ctx : Context)
    (query : String) (vars : List (String × JSONValue)) (w : World) :
    (∀ requestBody resp,
        P.jsonMarshal ⟨query, vars⟩ = .ok requestBody →
        P.newRequestErr "POST" c.endpoint = none →
        P.roundTrip w.sent (c.newRequest ctx requestBody) = .ok resp →
        resp.StatusCode ≠ 200 →
        (c.GraphQL P ctx query vars w).1
          = (none, some ("API request failed with status " ++ toString resp.StatusCode
              ++ ": " ++ resp.Body))) ∧
    (∀ response,
        (c.GraphQL P ctx query vars w).1.1 = some response →
        ∃ requestBody resp,
          P.jsonMarshal ⟨query, vars⟩ = .ok requestBody ∧
          P.roundTrip w.sent (c.newRequest ctx requestBody) = .ok resp ∧
          resp.StatusCode = 200 ∧
          P.decodeResponse resp.Body = .ok response) := by
  constructor
  · intro requestBody resp hmarshal hbuild hdo hstatus
    simp [Client.GraphQL, hmarshal, hbuild, hdo, hstatus]
  · intro response h
    unfold Client.GraphQL at h
    cases hmarshal : P.jsonMarshal ⟨query, vars⟩ with
    | error e => simp [hmarshal] at h
    | ok requestBody =>
      cases hbuild : P.newRequestErr "POST" c.endpoint with
      | some e => simp [hmarshal, hbuild] at h
      | none =>
        cases hdo : P.roundTrip w.sent (c.newRequest ctx requestBody) with
        | error e => simp [hmarshal, hbuild, hdo] at h
        | ok resp =>
          by_cases hstatus : resp.StatusCode = 200
          · cases hdecode : P.decodeResponse resp.Body with
            | error e => simp [hmarshal, hbuild, hdo, hstatus, hdecode] at h
            | ok r =>
              refine ⟨requestBody, resp, rfl, hdo, hstatus, ?_⟩
              by_cases hlen : r.Errors.length > 0
              · simp [hmarshal, hbuild, hdo, hstatus, hdecode, hlen] at h
                rw [← h, hdecode]
              · simp [hmarshal, hbuild, hdo, hstatus, hdecode, hlen] at h
                rw [← h, hdecode]
          · simp [hmarshal, hbuild, hdo, hstatus] at h

/-- Concrete run for C10: status 201 with a well-formed, error-free envelope is a failure. -/
theorem graphql_success_is_status_200_witness :
    (201 : Int) ≠ 200 ∧
    (sampleClient.GraphQL fixtureCreated.platform .background "query" [] World.init).1
      = (none, some ("API request failed with status 201: " ++ cleanEnvelope.1)) :=
  ⟨by decide,
   (graphql_success_is_status_200 fixtureCreated.platform sampleClient .background "query" []
     World.init).1 "query" ⟨201, cleanEnvelope.1⟩ rfl rfl rfl (by decide)⟩

/-- `GraphQL` never returns a nil response together with a nil error, so the callers never
dereference a nil response. -/
theorem graphql_response_or_error {F : Type} (P : Platform F) (c : Client) (ctx : Context)
    (query : String) (vars : List (String × JSONValue)) (w : World) :
    (c.GraphQL P ctx query vars w).1 ≠ (none, none) := by
  unfold Client.GraphQL
  cases hmarshal : P.jsonMarshal ⟨query, vars⟩ with
  | error e => simp [hmarshal]
  | ok requestBody =>
    cases hbuild : P.newRequestErr "POST" c.endpoint with
    | some e => simp [hmarshal, hbuild]
    | none =>
      cases hdo : P.roundTrip w.sent (c.newRequest ctx requestBody) with
      | error e => simp [hmarshal, hbuild, hdo]
      | ok resp =>
        by_cases hstatus : resp.StatusCode = 200
        · cases hdecode : P.decodeResponse resp.Body with
          | error e => simp [hmarshal, hbuild, hdo, hstatus, hdecode]
          | ok r =>
            by_cases hlen : r.Errors.length > 0
            · simp [hmarshal, hbuild, hdo, hstatus, hdecode, hlen]
            · simp [hmarshal, hbuild, hdo, hstatus, hdecode, hlen]
        · simp [hmarshal, hbuild, hdo, hstatus]

/-! ### Task 1 -/

theorem fetchLoop_fst {F : Type} (P : Platform F) (edges : List CustomerEdge) :
    ∀ (customers : List (Customer F)) (w : World),
      (fetchLoop P edges customers w).1 = customers ++ edges.filterMap (keepNode P) := by
  induction edges with
  | nil => intro customers w; simp [fetchLoop]
  | cons edge rest ih =>
    intro customers w
    cases h : P.parseFloat edge.Node.AmountSpent.Amount with
    | error e => simp [fetchLoop, h, ih, keepNode, List.filterMap_cons]
    | ok a => simp [fetchLoop, h, ih, keepNode, List.filterMap_cons]

theorem keepNode_copied {F : Type} (P : Platform F) (edges : List CustomerEdge) :
    (edges.filterMap (keepNode P)).map Customer.copied
      = (edges.filter (fun e => validAmount P e.Node.AmountSpent.Amount)).map
          (fun e => e.Node.copied) := by
  induction edges with
  | nil => rfl
  | cons edge rest ih =>
    cases h : P.parseFloat edge.Node.AmountSpent.Amount with
    | error e => simp [List.filterMap_cons, List.filter_cons, keepNode, validAmount, h, ih]
    | ok a =>
      simp [List.filterMap_cons, List.filter_cons, keepNode, validAmount, h, ih,
        Customer.copied, CustomerNode.copied]

theorem keepNode_amount {F : Type} (P : Platform F) (edges : List CustomerEdge) :
    (edges.filterMap (keepNode P)).map (fun c => Except.ok c.AmountSpent)
      = (edges.filter (fun e => validAmount P e.Node.AmountSpent.Amount)).map
          (fun e => P.parseFloat e.Node.AmountSpent.Amount) := by
  induction edges with
  | nil => rfl
  | cons edge rest ih =>
    cases h : P.parseFloat edge.Node.AmountSpent.Amount with
    | error e => simp [List.filterMap_cons, List.filter_cons, keepNode, validAmount, h, ih]
    | ok a => simp [List.filterMap_cons, List.filter_cons, keepNode, validAmount, h, ih]

/-- C2. When the segment query succeeds and its data decodes to a list of nodes,
`fetchFilteredCustomers` succeeds and returns exactly the nodes whose amount
`strconv.ParseFloat` accepts, in input order: the copied text fields (id, names, email,
currency) of the returned records are those of the accepted nodes, one record per accepted
node, and each record's amount is the parsed value of its node's amount. A rejected node
removes only itself and never fails the call. -/
theorem fetch_keeps_exactly_valid_amounts {F : Type} (P : Platform F) (ctx : Context)
    (client : Client) (w w1 : World) (response : GraphQLResponse) (result : SegmentResult)
    (hquery : client.GraphQL P ctx segmentQuery segmentVariables w = ((some response, none), w1))
    (hdecode : P.unmarshalSegment response.Data = .ok result) :
    ∃ customers : List (Customer F),
      (fetchFilteredCustomers P ctx client w).1 = .ok customers ∧
      customers.map Customer.copied
        = (result.CustomerSegmentMembers.Edges.filter
            (fun e => validAmount P e.Node.AmountSpent.Amount)).map (fun e => e.Node.copied) ∧
      customers.map (fun c => Except.ok c.AmountSpent)
        = (result.CustomerSegmentMembers.Edges.filter
            (fun e => validAmount P e.Node.AmountSpent.Amount)).map
            (fun e => P.parseFloat e.Node.AmountSpent.Amount) := by
  refine ⟨result.CustomerSegmentMembers.Edges.filterMap (keepNode P), ?_,
    keepNode_copied P _, keepNode_amount P _⟩
  simp [fetchFilteredCustomers, hquery, hdecode, fetchLoop_fst]

/-- Concrete run for C2: amounts "120.00", "bad", "45.50" give two records, the first and the
third node, and the leaderboard hands them to the writer as rows ranked 1 and 2. -/
theorem fetch_keeps_exactly_valid_amounts_witness :
    (∃ customers : List (Customer Nat),
      (fetchFilteredCustomers fixtureSegment.platform (.withTimeout 5) sampleClient
        World.init).1 = .ok customers ∧
      customers.map Customer.copied
        = [("c1", "Ada", "Lovelace", "c1@example.com", "USD"),
           ("c3", "Ada", "Lovelace", "c3@example.com", "USD")] ∧
      customers.map (fun c => Except.ok c.AmountSpent)
        = [parseHundredths "120.00", parseHundredths "45.50"]) ∧
    (GenerateCustomerLeaderboard fixtureSegment.platform sampleClient World.init).2.csvFile
      = some ("top_50_customers.csv",
          [csvHeader,
           ["1", "c1", "Ada", "Lovelace", "c1@example.com", "120.00", "USD"],
           ["2", "c3", "Ada", "Lovelace", "c3@example.com", "45.50", "USD"]]) :=
  ⟨fetch_keeps_exactly_valid_amounts fixtureSegment.platform (.withTimeout 5) sampleClient
      World.init _ ⟨"segment-data", []⟩
      ⟨⟨[sampleNode "c1" "120.00", sampleNode "c2" "bad", sampleNode "c3" "45.50"]⟩⟩ rfl rfl,
   by decide⟩

theorem exportLoop_ok {F : Type} (P : Platform F)
    (hwrite : ∀ rows record, P.writeErr rows record = none) (customers : List (Customer F)) :
    ∀ (i : Nat) (rows : List (List String)),
      exportLoop P customers i rows = (none, rows ++ recordsFrom P i customers) := by
  induction customers with
  | nil => intro i rows; simp [exportLoop, recordsFrom]
  | cons c rest ih =>
    intro i rows
    simp [exportLoop, recordsFrom, hwrite, ih]

theorem graphql_response_sent {F : Type} (P : Platform F) (c : Client) (ctx : Context)
    (query : String) (vars : List (String × JSONValue)) (w : World) (response : GraphQLResponse)
    (h : (c.GraphQL P ctx query vars w).1.1 = some response) :
    ∃ requestBody,
      P.jsonMarshal ⟨query, vars⟩ = .ok requestBody ∧
      (c.GraphQL P ctx query vars w).2
        = { w with sent := w.sent ++ [c.newRequest ctx requestBody] } := by
  unfold Client.GraphQL at h ⊢
  cases hmarshal : P.jsonMarshal ⟨query, vars⟩ with
  | error e => simp [hmarshal] at h
  | ok requestBody =>
    cases hbuild : P.newRequestErr "POST" c.endpoint with
    | some e => simp [hmarshal, hbuild] at h
    | none =>
      refine ⟨requestBody, rfl, ?_⟩
      cases hdo : P.roundTrip w.sent (c.newRequest ctx requestBody) with
      | error e => simp [hmarshal, hbuild, hdo] at h
      | ok resp =>
        by_cases hstatus : resp.StatusCode = 200
        · cases hdecode : P.decodeResponse resp.Body with
          | error e => simp [hmarshal, hbuild, hdo, hstatus, hdecode] at h
          | ok r =>
            by_cases hlen : r.Errors.length > 0
            · simp [hmarshal, hbuild, hdo, hstatus, hdecode, hlen]
            · simp [hmarshal, hbuild, hdo, hstatus, hdecode, hlen]
        · simp [hmarshal, hbuild, hdo, hstatus] at h

/-- C5. When the lookup answer decodes to a product that is missing (empty id) or has an
empty variants edge list, `findProductByHandle` returns an error, `CaptureTheFlag` returns
that error wrapped, exactly one request (the lookup) has been handed to the HTTP client, and
nothing has been printed: no mutation, no search, no success marker, no fallback. -/
theorem lookup_failure_stops_workflow {F : Type} (P : Platform F) (client : Client)
    (w w1 : World) (response : GraphQLResponse) (result : ProductResult)
    (hquery : client.GraphQL P .background productQuery
        (productVariables "the-videographer-snowboard") w = ((some response, none), w1))
    (hdecode : P.unmarshalProduct response.Data = .ok result)
    (hbad : result.Product.ID = "" ∨ result.Product.Variants.Edges = []) :
    ∃ err requestBody,
      (findProductByHandle P .background client "the-videographer-snowboard" w).1
        = .error err ∧
      (CaptureTheFlag P client w).1 = some ("failed to find flag product: " ++ err) ∧
      P.jsonMarshal ⟨productQuery, productVariables "the-videographer-snowboard"⟩
        = .ok requestBody ∧
      (CaptureTheFlag P client w).2.sent
        = w.sent ++ [client.newRequest .background requestBody] ∧
      (CaptureTheFlag P client w).2.stdout = w.stdout := by
  obtain ⟨requestBody, hbody, hworld⟩ :=
    graphql_response_sent P client .background productQuery
      (productVariables "the-videographer-snowboard") w response (by rw [hquery])
  rw [hquery] at hworld
  simp only at hworld
  by_cases hid : result.Product.ID = ""
  · refine ⟨"no product found with handle: the-videographer-snowboard", requestBody, ?_, ?_,
      hbody, ?_, ?_⟩ <;>
      simp [CaptureTheFlag, findProductByHandle, hquery, hdecode, hid, hworld]
  · have hedges : result.Product.Variants.Edges = [] := hbad.resolve_left hid
    refine ⟨"no variants found for product", requestBody, ?_, ?_, hbody, ?_, ?_⟩ <;>
      simp [CaptureTheFlag, findProductByHandle, hquery, hdecode, hid, hedges, hworld]

/-- Concrete run for C5: a product without variants; one request, error, nothing printed. -/
theorem lookup_failure_stops_workflow_witness :
    ((sampleProduct []).Product.ID = "" ∨ (sampleProduct []).Product.Variants.Edges = []) ∧
    ∃ err requestBody,
      (findProductByHandle fixtureNoVariants.platform .background sampleClient
        "the-videographer-snowboard" World.init).1 = .error err ∧
      (CaptureTheFlag fixtureNoVariants.platform sampleClient World.init).1
        = some ("failed to find flag product: " ++ err) ∧
      fixtureNoVariants.platform.jsonMarshal
        ⟨productQuery, productVariables "the-videographer-snowboard"⟩ = .ok requestBody ∧
      (CaptureTheFlag fixtureNoVariants.platform sampleClient World.init).2.sent
        = World.init.sent ++ [sampleClient.newRequest .background requestBody] ∧
      (CaptureTheFlag fixtureNoVariants.platform sampleClient World.init).2.stdout
        = World.init.stdout :=
  ⟨Or.inr rfl,
   lookup_failure_stops_workflow fixtureNoVariants.platform sampleClient World.init _
     ⟨"product-data", []⟩ (sampleProduct []) rfl rfl (Or.inr rfl)⟩

theorem scanItems_iff (variantID : String) (items : List LineItemEdge) :
    scanItems variantID items = true ↔ ∃ itemEdge ∈ items, itemEdge.Node.Variant.ID = variantID := by
  induction items with
  | nil => simp [scanItems]
  | cons itemEdge rest ih =>
    by_cases h : itemEdge.Node.Variant.ID = variantID
    · simp [scanItems, h]
    · simp [scanItems, h, ih]

theorem scanItems_eq_true_iff (variantID : String) (edge : OrderEdge) :
    scanItems variantID edge.Node.LineItems.Edges = true ↔ edge.hasVariant variantID :=
  scanItems_iff variantID edge.Node.LineItems.Edges

/-- The outer loop either stops at the first order holding the target, or exhausts the list. -/
theorem scanOrders_spec (variantID : String) (edges : List OrderEdge) (w : World) :
    (∃ pre edge post, edges = pre ++ edge :: post ∧
        (∀ o ∈ pre, ¬ o.hasVariant variantID) ∧ edge.hasVariant variantID ∧
        scanOrders variantID edges w = (none, w.printf (successMarker edge))) ∨
    ((∀ o ∈ edges, ¬ o.hasVariant variantID) ∧
        scanOrders variantID edges w
          = (some "no orders found containing the flag product", w)) := by
  induction edges with
  | nil => right; simp [scanOrders]
  | cons edge rest ih =>
    by_cases h : edge.hasVariant variantID
    · left
      refine ⟨[], edge, rest, rfl, by simp, h, ?_⟩
      simp [scanOrders, (scanItems_eq_true_iff variantID edge).mpr h, successMarker]
    · have hscan : scanItems variantID edge.Node.LineItems.Edges = false := by
        rw [← Bool.not_eq_true, scanItems_eq_true_iff]; exact h
      rcases ih with ⟨pre, e, post, hsplit, hpre, he, hrun⟩ | ⟨hall, hrun⟩
      · left
        refine ⟨edge :: pre, e, post, by simp [hsplit], ?_, he, ?_⟩
        · intro o ho
          rcases List.mem_cons.mp ho with rfl | ho
          · exact h
          · exact hpre o ho
        · simp [scanOrders, hscan, hrun]
      · right
        refine ⟨?_, ?_⟩
        · intro o ho
          rcases List.mem_cons.mp ho with rfl | ho
          · exact h
          · exact hall o ho
        · simp [scanOrders, hscan, hrun]

theorem findFlagOrders_decoded {F : Type} (P : Platform F) (client : Client) (ctx : Context)
    (variantID userEmail : String) (w w1 : World) (response : GraphQLResponse)
    (result : OrdersResult)
    (hquery : client.GraphQL P ctx ordersQuery (ordersVariables userEmail) w
        = ((some response, none), w1))
    (hdecode : P.unmarshalOrders response.Data = .ok result) :
    findFlagOrders P ctx client variantID userEmail w
      = if result.Orders.Edges.length = 0 then
          (some ("no orders found for email: " ++ userEmail), w1)
        else scanOrders variantID result.Orders.Edges w1 := by
  simp [findFlagOrders, hquery, hdecode]

theorem captureTheFlag_after_lookup {F : Type} (P : Platform F) (client : Client)
    (w0 w0' : World) (flagProduct : ProductInfo)
    (hlookup : findProductByHandle P .background client "the-videographer-snowboard" w0
        = (.ok flagProduct, w0')) :
    CaptureTheFlag P client w0
      = match findFlagOrders P .background client flagProduct.VariantID client.config.UserEmail
            (mutateStep P .background client flagProduct
              (w0'.printf ("Found flag product: " ++ flagProduct.Title ++ "\n"))) with
        | (some err, w4) =>
          (none, { w4 with stdout := w4.stdout ++ fallbackLines client.config err })
        | (none, w4) => (none, w4) := by
  simp [CaptureTheFlag, hlookup, Client.GetConfig]

/-- C6. For a successfully decoded search answer and any target variant identifier,
`findFlagOrders` returns nil exactly when some returned order has a line item, at any
position, whose variant identifier is the target (so it returns an error when no order is
returned or none matches); when it succeeds it stops at the first such order, in returned
order, and prints the success marker with that order's name; and a `CaptureTheFlag` run
whose search step is this one then returns with that marker as its last printed line, the
fallback instructions not being printed. -/
theorem search_succeeds_iff_first_match {F : Type} (P : Platform F) (client : Client)
    (ctx : Context) (variantID userEmail : String) (w w1 : World) (response : GraphQLResponse)
    (result : OrdersResult)
    (hquery : client.GraphQL P ctx ordersQuery (ordersVariables userEmail) w
        = ((some response, none), w1))
    (hdecode : P.unmarshalOrders response.Data = .ok result) :
    ((findFlagOrders P ctx client variantID userEmail w).1 = none ↔
        ∃ edge ∈ result.Orders.Edges, edge.hasVariant variantID) ∧
    ((∃ edge ∈ result.Orders.Edges, edge.hasVariant variantID) →
        ∃ pre edge post, result.Orders.Edges = pre ++ edge :: post ∧
          (∀ o ∈ pre, ¬ o.hasVariant variantID) ∧ edge.hasVariant variantID ∧
          findFlagOrders P ctx client variantID userEmail w
            = (none, w1.printf (successMarker edge)) ∧
          ∀ (w0 w0' : World) (flagProduct : ProductInfo),
            findProductByHandle P .background client "the-videographer-snowboard" w0
              = (.ok flagProduct, w0') →
            ctx = .background → variantID = flagProduct.VariantID →
            userEmail = client.config.UserEmail →
            w = mutateStep P .background client flagProduct
                  (w0'.printf ("Found flag product: " ++ flagProduct.Title ++ "\n")) →
            (CaptureTheFlag P client w0).1 = none ∧
            (CaptureTheFlag P client w0).2.stdout = w.stdout ++ [successMarker edge] ∧
            (CaptureTheFlag P client w0).2.sent = w1.sent) := by
  have hrun := findFlagOrders_decoded P client ctx variantID userEmail w w1 response result
    hquery hdecode
  have hw1 : w1.stdout = w.stdout := by
    obtain ⟨_, _, hworld⟩ := graphql_response_sent P client ctx ordersQuery
      (ordersVariables userEmail) w response (by rw [hquery])
    rw [hquery] at hworld
    simp only at hworld
    rw [hworld]
  have key : (∃ edge ∈ result.Orders.Edges, edge.hasVariant variantID) →
      ∃ pre edge post, result.Orders.Edges = pre ++ edge :: post ∧
          (∀ o ∈ pre, ¬ o.hasVariant variantID) ∧ edge.hasVariant variantID ∧
          findFlagOrders P ctx client variantID userEmail w
            = (none, w1.printf (successMarker edge)) := by
    rintro ⟨e, hmem, he⟩
    have hne : result.Orders.Edges.length ≠ 0 := by
      intro h0
      rw [List.length_eq_zero] at h0
      rw [h0] at hmem
      exact absurd hmem (List.not_mem_nil e)
    rcases scanOrders_spec variantID result.Orders.Edges w1 with
      ⟨pre, edge, post, hsplit, hpre, hedge, hscan⟩ | ⟨hall, _⟩
    · exact ⟨pre, edge, post, hsplit, hpre, hedge, by rw [hrun, if_neg hne, hscan]⟩
    · exact absurd he (hall e hmem)
  refine ⟨⟨?_, ?_⟩, ?_⟩
  · intro hnone
    by_cases h0 : result.Orders.Edges.length = 0
    · rw [hrun, if_pos h0] at hnone
      simp at hnone
    · rw [hrun, if_neg h0] at hnone
      rcases scanOrders_spec variantID result.Orders.Edges w1 with
        ⟨pre, edge, post, hsplit, _, hedge, _⟩ | ⟨_, hscan⟩
      · exact ⟨edge, by rw [hsplit]; simp, hedge⟩
      · rw [hscan] at hnone
        simp at hnone
  · intro hex
    obtain ⟨_, edge, _, _, _, _, hfound⟩ := key hex
    rw [hfound]
  · intro hex
    obtain ⟨pre, edge, post, hsplit, hpre, hedge, hfound⟩ := key hex
    refine ⟨pre, edge, post, hsplit, hpre, hedge, hfound, ?_⟩
    intro w0 w0' flagProduct hlookup hctx hvariant hemail hw
    subst hctx hvariant hemail hw
    rw [captureTheFlag_after_lookup P client w0 w0' flagProduct hlookup, hfound]
    simp [World.printf, hw1]

/-- Concrete run for C6: the target is the second line item of the second order; the run
prints the marker for that order and no fallback. -/
theorem search_succeeds_iff_first_match_witness :
    ((findFlagOrders (fixtureOrders ordersWithMatch).platform .background sampleClient "v1"
        "ops@example.com" (worldBeforeSearch (fixtureOrders ordersWithMatch))).1 = none ↔
      ∃ edge ∈ ordersWithMatch, edge.hasVariant "v1") ∧
    CaptureTheFlag (fixtureOrders ordersWithMatch).platform sampleClient World.init
      = (none,
         ⟨(worldBeforeSearch (fixtureOrders ordersWithMatch)).sent ++
            [sampleClient.newRequest .background ordersQuery],
          ["Found flag product: The Videographer Snowboard\n",
           "Inventory tracking disabled\n",
           "FLAG CAPTURED! Found order #1002 with flag product!\n"],
          none, none⟩) :=
  ⟨(search_succeeds_iff_first_match (fixtureOrders ordersWithMatch).platform sampleClient
      .background "v1" "ops@example.com" (worldBeforeSearch (fixtureOrders ordersWithMatch)) _
      ⟨"orders-data", []⟩ ⟨⟨ordersWithMatch⟩⟩ rfl rfl).1,
   by decide⟩

/-- C7. After a successful lookup, when the search answer decodes to orders none of which
holds the target variant (in particular when it decodes to no order at all),
`findFlagOrders` reports a miss and `CaptureTheFlag` prints the fallback instructions, with
the store URL, the operator secret and the operator email, and returns nil. -/
theorem soft_miss_takes_fallback {F : Type} (P : Platform F) (client : Client)
    (w0 w0' w1 : World) (flagProduct : ProductInfo) (response : GraphQLResponse)
    (result : OrdersResult)
    (hlookup : findProductByHandle P .background client "the-videographer-snowboard" w0
        = (.ok flagProduct, w0'))
    (hquery : client.GraphQL P .background ordersQuery (ordersVariables client.config.UserEmail)
        (mutateStep P .background client flagProduct
          (w0'.printf ("Found flag product: " ++ flagProduct.Title ++ "\n")))
        = ((some response, none), w1))
    (hdecode : P.unmarshalOrders response.Data = .ok result)
    (hmiss : ∀ edge ∈ result.Orders.Edges, ¬ edge.hasVariant flagProduct.VariantID) :
    ∃ err,
      err = (if result.Orders.Edges = []
             then "no orders found for email: " ++ client.config.UserEmail
             else "no orders found containing the flag product") ∧
      (findFlagOrders P .background client flagProduct.VariantID client.config.UserEmail
        (mutateStep P .background client flagProduct
          (w0'.printf ("Found flag product: " ++ flagProduct.Title ++ "\n")))).1 = some err ∧
      CaptureTheFlag P client w0
        = (none, { w1 with stdout := w1.stdout ++ fallbackLines client.config err }) ∧
      ("1. Visit: " ++ client.config.ShopifyURL ++ " (password: "
          ++ client.config.StorePassword ++ ")\n") ∈ (CaptureTheFlag P client w0).2.stdout ∧
      ("3. Checkout with email: " ++ client.config.UserEmail ++ "\n")
          ∈ (CaptureTheFlag P client w0).2.stdout := by
  have hrun := findFlagOrders_decoded P client .background flagProduct.VariantID
    client.config.UserEmail _ w1 response result hquery hdecode
  have hcap := captureTheFlag_after_lookup P client w0 w0' flagProduct hlookup
  by_cases h0 : result.Orders.Edges = []
  · have hlen : result.Orders.Edges.length = 0 := by rw [h0]; rfl
    rw [if_pos hlen] at hrun
    refine ⟨_, rfl, ?_, ?_, ?_, ?_⟩
    · rw [hrun, if_pos h0]
    · rw [hcap, hrun, if_pos h0]
    · rw [hcap, hrun]; simp [fallbackLines]
    · rw [hcap, hrun]; simp [fallbackLines]
  · have hlen : result.Orders.Edges.length ≠ 0 := by
      intro h; exact h0 (List.length_eq_zero.mp h)
    rw [if_neg hlen] at hrun
    rcases scanOrders_spec flagProduct.VariantID result.Orders.Edges w1 with
      ⟨pre, edge, post, hsplit, _, hedge, _⟩ | ⟨_, hscan⟩
    · exact absurd hedge (hmiss edge (by rw [hsplit]; simp))
    · rw [hscan] at hrun
      refine ⟨_, rfl, ?_, ?_, ?_, ?_⟩
      · rw [hrun, if_neg h0]
      · rw [hcap, hrun, if_neg h0]
      · rw [hcap, hrun]; simp [fallbackLines]
      · rw [hcap, hrun]; simp [fallbackLines]

/-- Concrete run for C7: two orders, neither holding the target; fallback printed, nil
returned. -/
theorem soft_miss_takes_fallback_witness :
    (∀ edge ∈ ordersWithoutMatch, ¬ edge.hasVariant sampleFlagProduct.VariantID) ∧
    ∃ err,
      err = (if ordersWithoutMatch = []
             then "no orders found for email: " ++ sampleClient.config.UserEmail
             else "no orders found containing the flag product") ∧
      (findFlagOrders (fixtureOrders ordersWithoutMatch).platform .background sampleClient
        sampleFlagProduct.VariantID sampleClient.config.UserEmail
        (worldBeforeSearch (fixtureOrders ordersWithoutMatch))).1 = some err ∧
      CaptureTheFlag (fixtureOrders ordersWithoutMatch).platform sampleClient World.init
        = (none,
           { sent := (worldBeforeSearch (fixtureOrders ordersWithoutMatch)).sent ++
               [sampleClient.newRequest .background ordersQuery],
             stdout := (worldBeforeSearch (fixtureOrders ordersWithoutMatch)).stdout ++
               fallbackLines sampleClient.config err,
             csvFile := none
             fileText := none }) ∧
      "1. Visit: https://shop.example (password: secret)\n"
        ∈ (CaptureTheFlag (fixtureOrders ordersWithoutMatch).platform sampleClient
            World.init).2.stdout ∧
      "3. Checkout with email: ops@example.com\n"
        ∈ (CaptureTheFlag (fixtureOrders ordersWithoutMatch).platform sampleClient
            World.init).2.stdout :=
  have hmiss : ∀ edge ∈ ordersWithoutMatch, ¬ edge.hasVariant sampleFlagProduct.VariantID := by
    intro edge hedge
    rw [← scanItems_eq_true_iff]
    revert edge
    decide
  ⟨hmiss,
   soft_miss_takes_fallback (fixtureOrders ordersWithoutMatch).platform sampleClient
     World.init _ _ sampleFlagProduct ⟨"orders-data", []⟩ ⟨⟨ordersWithoutMatch⟩⟩
     rfl rfl rfl hmiss⟩

/-- C8 fails on the code: in this run the search request meets a transport failure,
`findFlagOrders` returns the wrapped transport error, and `CaptureTheFlag` still returns nil
after printing the fallback instructions. -/
theorem search_transport_failure_not_propagated :
    fixtureSearchDown.platform.roundTrip (worldBeforeSearch fixtureSearchDown).sent
        (sampleClient.newRequest .background ordersQuery) = .error "connection refused" ∧
    (findFlagOrders fixtureSearchDown.platform .background sampleClient "v1" "ops@example.com"
        (worldBeforeSearch fixtureSearchDown)).1
      = some "GraphQL query failed: failed to send request: connection refused" ∧
    (CaptureTheFlag fixtureSearchDown.platform sampleClient World.init).1 = none ∧
    (CaptureTheFlag fixtureSearchDown.platform sampleClient World.init).2.stdout
      = ["Found flag product: The Videographer Snowboard\n",
         "Inventory tracking disabled\n",
         "No existing flag orders found: GraphQL query failed: "
           ++ "failed to send request: connection refused\n",
         "\nTo capture the flag, place an order manually:\n",
         "1. Visit: https://shop.example (password: secret)\n",
         "2. Search for the flag product and add to cart\n",
         "3. Checkout with email: ops@example.com\n",
         "4. Complete the order\n"] :=
  ⟨rfl, by decide, by decide, by decide⟩

/-- C8 as the code has it. After a successful lookup: whenever the search step's GraphQL call
returns an error (transport failure, status other than 200, undecodable body or non-empty
errors array), `findFlagOrders` returns that error wrapped; whatever error `findFlagOrders`
returns, a miss or a failed request alike, `CaptureTheFlag` prints the six fallback lines,
the first carrying that error's text and the others the store URL, the operator secret and
the operator email, and returns nil; so `CaptureTheFlag` returns nil in every run whose
lookup succeeds. -/
theorem search_request_failure_takes_fallback {F : Type} (P : Platform F) (client : Client)
    (w0 w0' : World) (flagProduct : ProductInfo)
    (hlookup : findProductByHandle P .background client "the-videographer-snowboard" w0
        = (.ok flagProduct, w0')) :
    (∀ (response : Option GraphQLResponse) (err : String) (w1 : World),
      client.GraphQL P .background ordersQuery (ordersVariables client.config.UserEmail)
          (mutateStep P .background client flagProduct
            (w0'.printf ("Found flag product: " ++ flagProduct.Title ++ "\n")))
        = ((response, some err), w1) →
      findFlagOrders P .background client flagProduct.VariantID client.config.UserEmail
          (mutateStep P .background client flagProduct
            (w0'.printf ("Found flag product: " ++ flagProduct.Title ++ "\n")))
        = (some ("GraphQL query failed: " ++ err), w1) ∧
      CaptureTheFlag P client w0
        = (none,
           { w1 with
             stdout := w1.stdout ++
               ["No existing flag orders found: " ++ ("GraphQL query failed: " ++ err) ++ "\n",
                "\nTo capture the flag, place an order manually:\n",
                "1. Visit: " ++ client.config.ShopifyURL ++ " (password: "
                  ++ client.config.StorePassword ++ ")\n",
                "2. Search for the flag product and add to cart\n",
                "3. Checkout with email: " ++ client.config.UserEmail ++ "\n",
                "4. Complete the order\n"] })) ∧
    (∀ (err : String) (w4 : World),
      findFlagOrders P .background client flagProduct.VariantID client.config.UserEmail
          (mutateStep P .background client flagProduct
            (w0'.printf ("Found flag product: " ++ flagProduct.Title ++ "\n")))
        = (some err, w4) →
      CaptureTheFlag P client w0
        = (none,
           { w4 with
             stdout := w4.stdout ++
               ["No existing flag orders found: " ++ err ++ "\n",
                "\nTo capture the flag, place an order manually:\n",
                "1. Visit: " ++ client.config.ShopifyURL ++ " (password: "
                  ++ client.config.StorePassword ++ ")\n",
                "2. Search for the flag product and add to cart\n",
                "3. Checkout with email: " ++ client.config.UserEmail ++ "\n",
                "4. Complete the order\n"] })) ∧
    (CaptureTheFlag P client w0).1 = none := by
  have hcap := captureTheFlag_after_lookup P client w0 w0' flagProduct hlookup
  refine ⟨?_, ?_, ?_⟩
  · intro response err w1 hquery
    have hrun : findFlagOrders P .background client flagProduct.VariantID
        client.config.UserEmail
        (mutateStep P .background client flagProduct
          (w0'.printf ("Found flag product: " ++ flagProduct.Title ++ "\n")))
        = (some ("GraphQL query failed: " ++ err), w1) := by
      simp [findFlagOrders, hquery]
    refine ⟨hrun, ?_⟩
    rw [hcap, hrun]
    simp [fallbackLines]
  · intro err w4 hrun
    rw [hcap, hrun]
    simp [fallbackLines]
  · rw [hcap]
    rcases findFlagOrders P .background client flagProduct.VariantID client.config.UserEmail
        (mutateStep P .background client flagProduct
          (w0'.printf ("Found flag product: " ++ flagProduct.Title ++ "\n"))) with
      ⟨_ | err, w4⟩ <;> rfl

/-- Concrete run for C8 as amended: the search request is answered with HTTP 500. -/
theorem search_request_failure_takes_fallback_witness :
    findFlagOrders fixtureSearchRejected.platform .background sampleClient
        sampleFlagProduct.VariantID sampleClient.config.UserEmail
        (worldBeforeSearch fixtureSearchRejected)
      = (some ("GraphQL query failed: "
          ++ "API request failed with status 500: Internal Server Error"),
         { worldBeforeSearch fixtureSearchRejected with
           sent := (worldBeforeSearch fixtureSearchRejected).sent ++
             [sampleClient.newRequest .background ordersQuery] }) ∧
    CaptureTheFlag fixtureSearchRejected.platform sampleClient World.init
      = (none,
         { sent := (worldBeforeSearch fixtureSearchRejected).sent ++
             [sampleClient.newRequest .background ordersQuery],
           stdout :=
             ["Found flag product: The Videographer Snowboard\n",
              "Inventory tracking disabled\n",
              "No existing flag orders found: GraphQL query failed: "
                ++ "API request failed with status 500: Internal Server Error\n",
              "\nTo capture the flag, place an order manually:\n",
              "1. Visit: https://shop.example (password: secret)\n",
              "2. Search for the flag product and add to cart\n",
              "3. Checkout with email: ops@example.com\n",
              "4. Complete the order\n"],
           csvFile := none
           fileText := none }) ∧
    (CaptureTheFlag fixtureSearchRejected.platform sampleClient World.init).1 = none :=
  have h := search_request_failure_takes_fallback fixtureSearchRejected.platform sampleClient
    World.init _ sampleFlagProduct rfl
  ⟨(h.1 none _ _ rfl).1, (h.1 none _ _ rfl).2, h.2.2⟩

/-! ### The mutation step does not influence the rest of the run -/

theorem graphql_world {F : Type} (P : Platform F) (c : Client) (ctx : Context)
    (query : String) (vars : List (String × JSONValue)) (w : World) :
    (c.GraphQL P ctx query vars w).2
      = { w with sent := w.sent ++ c.requestsOf P ctx query vars } := by
  unfold Client.GraphQL Client.requestsOf
  cases hmarshal : P.jsonMarshal ⟨query, vars⟩ with
  | error e => simp [hmarshal]
  | ok requestBody =>
    cases hbuild : P.newRequestErr "POST" c.endpoint with
    | some e => simp [hmarshal, hbuild]
    | none =>
      cases hdo : P.roundTrip w.sent (c.newRequest ctx requestBody) with
      | error e => simp [hmarshal, hbuild, hdo]
      | ok resp =>
        by_cases hstatus : resp.StatusCode = 200
        · cases hdecode : P.decodeResponse resp.Body with
          | error e => simp [hmarshal, hbuild, hdo, hstatus, hdecode]
          | ok r =>
            by_cases hlen : r.Errors.length > 0
            · simp [hmarshal, hbuild, hdo, hstatus, hdecode, hlen]
            · simp [hmarshal, hbuild, hdo, hstatus, hdecode, hlen]
        · simp [hmarshal, hbuild, hdo, hstatus]

theorem graphql_result_of_sent {F : Type} (P : Platform F) (c : Client) (ctx : Context)
    (query : String) (vars : List (String × JSONValue)) (w w' : World)
    (hsent : w'.sent = w.sent) :
    (c.GraphQL P ctx query vars w').1 = (c.GraphQL P ctx query vars w).1 := by
  unfold Client.GraphQL
  rw [hsent]
  cases hmarshal : P.jsonMarshal ⟨query, vars⟩ with
  | error e => simp [hmarshal]
  | ok requestBody =>
    cases hbuild : P.newRequestErr "POST" c.endpoint with
    | some e => simp [hmarshal, hbuild]
    | none =>
      cases hdo : P.roundTrip w.sent (c.newRequest ctx requestBody) with
      | error e => simp [hmarshal, hbuild, hdo]
      | ok resp =>
        by_cases hstatus : resp.StatusCode = 200
        · cases hdecode : P.decodeResponse resp.Body with
          | error e => simp [hmarshal, hbuild, hdo, hstatus, hdecode]
          | ok r =>
            by_cases hlen : r.Errors.length > 0
            · simp [hmarshal, hbuild, hdo, hstatus, hdecode, hlen]
            · simp [hmarshal, hbuild, hdo, hstatus, hdecode, hlen]
        · simp [hmarshal, hbuild, hdo, hstatus]

theorem graphql_congr {F : Type} (P : Platform F)
    (rt : List HttpRequest → HttpRequest → Except String HttpResponse)
    (c : Client) (ctx : Context) (query : String) (vars : List (String × JSONValue))
    (w : World)
    (hsame : ∀ requestBody, P.jsonMarshal ⟨query, vars⟩ = .ok requestBody →
      P.newRequestErr "POST" c.endpoint = none →
      rt w.sent (c.newRequest ctx requestBody)
        = P.roundTrip w.sent (c.newRequest ctx requestBody)) :
    c.GraphQL { P with roundTrip := rt } ctx query vars w = c.GraphQL P ctx query vars w := by
  unfold Client.GraphQL
  cases hmarshal : P.jsonMarshal ⟨query, vars⟩ with
  | error e => simp [hmarshal]
  | ok requestBody =>
    cases hbuild : P.newRequestErr "POST" c.endpoint with
    | some e => simp [hmarshal, hbuild]
    | none => simp [hmarshal, hbuild, hsame requestBody hmarshal hbuild]

theorem graphql_pair {F : Type} (P : Platform F) (c : Client) (ctx : Context)
    (query : String) (vars : List (String × JSONValue)) (w : World) :
    c.GraphQL P ctx query vars w
      = ((c.GraphQL P ctx query vars w).1,
         { w with sent := w.sent ++ c.requestsOf P ctx query vars }) := by
  rw [← graphql_world]

theorem mutateStep_world {F : Type} (P : Platform F) (ctx : Context) (client : Client)
    (flagProduct : ProductInfo) (w : World) :
    mutateStep P ctx client flagProduct w
      = { w with
          sent := w.sent ++ client.requestsOf P ctx inventoryMutation
            (mutationVariables flagProduct.InventoryItemID)
          stdout := w.stdout ++
            [mutationLine (disableInventoryTracking P ctx client
              flagProduct.InventoryItemID w).1] } := by
  have hp := graphql_pair P client ctx inventoryMutation
    (mutationVariables flagProduct.InventoryItemID) w
  generalize (client.GraphQL P ctx inventoryMutation
    (mutationVariables flagProduct.InventoryItemID) w).1 = g at hp
  unfold mutateStep disableInventoryTracking
  rw [hp]
  rcases g with ⟨_ | response, _ | err⟩
  · simp [World.printf, mutationLine]
  · simp [World.printf, mutationLine]
  · cases hdecode : P.unmarshalMutation response.Data with
    | error e => simp [World.printf, mutationLine, hdecode]
    | ok result =>
      cases herrs : result.InventoryItemUpdate.UserErrors with
      | nil => simp [World.printf, mutationLine, hdecode, herrs]
      | cons firstError others => simp [World.printf, mutationLine, hdecode, herrs]
  · simp [World.printf, mutationLine]

theorem scanOrders_frame (variantID : String) (edges : List OrderEdge) :
    ∃ lines : List String, ∀ w : World,
      scanOrders variantID edges w
        = ((scanOrders variantID edges World.init).1, { w with stdout := w.stdout ++ lines }) := by
  induction edges with
  | nil => exact ⟨[], fun w => by simp [scanOrders]⟩
  | cons edge rest ih =>
    by_cases h : scanItems variantID edge.Node.LineItems.Edges = true
    · exact ⟨["FLAG CAPTURED! Found order " ++ edge.Node.Name ++ " with flag product!\n"],
        fun w => by simp [scanOrders, h, World.printf]⟩
    · obtain ⟨lines, hlines⟩ := ih
      refine ⟨lines, fun w => ?_⟩
      simp only [scanOrders, h]
      rw [hlines w]
      simp

theorem findFlagOrders_frame {F : Type} (P : Platform F) (ctx : Context) (client : Client)
    (variantID userEmail : String) (w : World) :
    ∃ lines : List String, ∀ w' : World, w'.sent = w.sent →
      findFlagOrders P ctx client variantID userEmail w'
        = ((findFlagOrders P ctx client variantID userEmail w).1,
           { w' with
             sent := w'.sent ++ client.requestsOf P ctx ordersQuery (ordersVariables userEmail)
             stdout := w'.stdout ++ lines }) := by
  have hp := fun w' => graphql_pair P client ctx ordersQuery (ordersVariables userEmail) w'
  have hres := fun w' (hs : w'.sent = w.sent) =>
    graphql_result_of_sent P client ctx ordersQuery (ordersVariables userEmail) w w' hs
  generalize hg : (client.GraphQL P ctx ordersQuery (ordersVariables userEmail) w).1 = g
    at hres
  have hw := hp w
  rw [hg] at hw
  rcases g with ⟨_ | response, _ | err⟩
  · refine ⟨[], fun w' hs => ?_⟩
    have hw' := hp w'
    rw [hres w' hs] at hw'
    simp [findFlagOrders, hw, hw']
  · refine ⟨[], fun w' hs => ?_⟩
    have hw' := hp w'
    rw [hres w' hs] at hw'
    simp [findFlagOrders, hw, hw']
  · cases hdecode : P.unmarshalOrders response.Data with
    | error e =>
      refine ⟨[], fun w' hs => ?_⟩
      have hw' := hp w'
      rw [hres w' hs] at hw'
      simp [findFlagOrders, hw, hw', hdecode]
    | ok result =>
      by_cases h0 : result.Orders.Edges.length = 0
      · refine ⟨[], fun w' hs => ?_⟩
        have hw' := hp w'
        rw [hres w' hs] at hw'
        simp only [findFlagOrders, hw, hw', hdecode, if_pos h0]
        simp
      · obtain ⟨lines, hlines⟩ := scanOrders_frame variantID result.Orders.Edges
        refine ⟨lines, fun w' hs => ?_⟩
        have hw' := hp w'
        rw [hres w' hs] at hw'
        simp only [findFlagOrders, hw, hw', hdecode, if_neg h0]
        rw [hlines, hlines { w with sent := _ }]
  · refine ⟨[], fun w' hs => ?_⟩
    have hw' := hp w'
    rw [hres w' hs] at hw'
    simp [findFlagOrders, hw, hw']

theorem findFlagOrders_congr {F : Type} (P : Platform F)
    (rt : List HttpRequest → HttpRequest → Except String HttpResponse)
    (ctx : Context) (client : Client) (variantID userEmail : String) (w : World)
    (hsame : ∀ r, P.newRequestErr "POST" client.endpoint = none →
      rt w.sent r = P.roundTrip w.sent r) :
    findFlagOrders { P with roundTrip := rt } ctx client variantID userEmail w
      = findFlagOrders P ctx client variantID userEmail w := by
  unfold findFlagOrders
  rw [graphql_congr P rt client ctx ordersQuery (ordersVariables userEmail) w
    (fun body _ hb => hsame _ hb)]

theorem findProductByHandle_congr {F : Type} (P : Platform F)
    (rt : List HttpRequest → HttpRequest → Except String HttpResponse)
    (ctx : Context) (client : Client) (handle : String) (w : World)
    (hsame : ∀ r, rt w.sent r = P.roundTrip w.sent r) :
    findProductByHandle { P with roundTrip := rt } ctx client handle w
      = findProductByHandle P ctx client handle w := by
  unfold findProductByHandle
  rw [graphql_congr P rt client ctx productQuery (productVariables handle) w
    (fun body _ _ => hsame _)]

theorem lookup_ok_sent {F : Type} (P : Platform F) (ctx : Context) (client : Client)
    (handle : String) (w w1 : World) (flagProduct : ProductInfo)
    (hlookup : findProductByHandle P ctx client handle w = (.ok flagProduct, w1)) :
    P.newRequestErr "POST" client.endpoint = none ∧ w1.sent.length = w.sent.length + 1 ∧
      w1.stdout = w.stdout := by
  have hp := graphql_pair P client ctx productQuery (productVariables handle) w
  generalize (client.GraphQL P ctx productQuery (productVariables handle) w).1 = g at hp
  unfold findProductByHandle at hlookup
  rw [hp] at hlookup
  rcases g with ⟨_ | response, _ | err⟩
  · simp at hlookup
  · simp at hlookup
  · have hw1 : w1 = { w with sent := (w.sent ++ client.requestsOf P ctx productQuery
        (productVariables handle)) } := by
      cases hdecode : P.unmarshalProduct response.Data with
      | error e => simp [hdecode] at hlookup
      | ok result =>
        by_cases hid : result.Product.ID = ""
        · simp [hdecode, hid] at hlookup
        · cases hedges : result.Product.Variants.Edges with
          | nil => simp [hdecode, hid, hedges] at hlookup
          | cons e es =>
            simp [hdecode, hid, hedges] at hlookup
            exact hlookup.2.symm
    have hsome : (client.GraphQL P ctx productQuery (productVariables handle) w).1.1
        = some response := by rw [hp]
    unfold Client.GraphQL at hsome
    unfold Client.requestsOf at hw1
    cases hmarshal : P.jsonMarshal ⟨productQuery, productVariables handle⟩ with
    | error e => simp [hmarshal] at hsome
    | ok body =>
      cases hbuild : P.newRequestErr "POST" client.endpoint with
      | some e => simp [hmarshal, hbuild] at hsome
      | none =>
        simp only [hmarshal, hbuild] at hw1
        refine ⟨rfl, ?_, ?_⟩ <;> simp [hw1]
  · simp at hlookup

/-- C9. The mutation step is not fatal. Take a run whose lookup succeeds, and any second
HTTP client `rt` that answers like the first except possibly to the request sent right after
the lookup, which is the mutation (`honly`; should the mutation request not even serialise,
nothing is sent for it and the two clients are the same, `hserial`). The two runs may so
differ in the outcome of `disableInventoryTracking` in any way: success, failed request,
undecodable data, user errors. In both runs `CaptureTheFlag` goes on to `findFlagOrders` with
the looked-up variant identifier and the configured operator email, returns nil, hands the
same requests to the HTTP client, and prints the same lines except for the one line of the
mutation step; so the success marker or the fallback is printed in the one run exactly when
it is in the other. When the mutation answer carries user errors, the error
`disableInventoryTracking` returns carries the first one's message. -/
theorem mutation_outcome_is_not_fatal {F : Type} (P : Platform F)
    (rt : List HttpRequest → HttpRequest → Except String HttpResponse)
    (client : Client) (w0 w0' : World) (flagProduct : ProductInfo)
    (hlookup : findProductByHandle P .background client "the-videographer-snowboard" w0
        = (.ok flagProduct, w0'))
    (honly : ∀ h r, h.length ≠ w0'.sent.length → rt h r = P.roundTrip h r)
    (hserial : ∀ e, P.jsonMarshal ⟨inventoryMutation,
        mutationVariables flagProduct.InventoryItemID⟩ = .error e →
        ∀ h r, rt h r = P.roundTrip h r) :
    ∃ rest : List String,
      CaptureTheFlag P client w0
        = (match findFlagOrders P .background client flagProduct.VariantID
              client.config.UserEmail
              (mutateStep P .background client flagProduct
                (w0'.printf ("Found flag product: " ++ flagProduct.Title ++ "\n"))) with
           | (some err, w4) =>
             (none, { w4 with stdout := w4.stdout ++ fallbackLines client.config err })
           | (none, w4) => (none, w4)) ∧
      (CaptureTheFlag P client w0).1 = none ∧
      (CaptureTheFlag { P with roundTrip := rt } client w0).1 = none ∧
      (CaptureTheFlag P client w0).2.sent
        = w0'.sent ++ client.requestsOf P .background inventoryMutation
            (mutationVariables flagProduct.InventoryItemID)
          ++ client.requestsOf P .background ordersQuery
            (ordersVariables client.config.UserEmail) ∧
      (CaptureTheFlag { P with roundTrip := rt } client w0).2.sent
        = (CaptureTheFlag P client w0).2.sent ∧
      (CaptureTheFlag P client w0).2.stdout
        = w0'.stdout ++ ["Found flag product: " ++ flagProduct.Title ++ "\n",
            mutationLine (disableInventoryTracking P .background client
              flagProduct.InventoryItemID
              (w0'.printf ("Found flag product: " ++ flagProduct.Title ++ "\n"))).1] ++ rest ∧
      (CaptureTheFlag { P with roundTrip := rt } client w0).2.stdout
        = w0'.stdout ++ ["Found flag product: " ++ flagProduct.Title ++ "\n",
            mutationLine (disableInventoryTracking { P with roundTrip := rt } .background client
              flagProduct.InventoryItemID
              (w0'.printf ("Found flag product: " ++ flagProduct.Title ++ "\n"))).1] ++ rest ∧
      (∀ (w w1 : World) (response : GraphQLResponse) (result : MutationResult)
          (firstError : UserError) (others : List UserError),
        client.GraphQL P .background inventoryMutation
            (mutationVariables flagProduct.InventoryItemID) w = ((some response, none), w1) →
        P.unmarshalMutation response.Data = .ok result →
        result.InventoryItemUpdate.UserErrors = firstError :: others →
        (disableInventoryTracking P .background client flagProduct.InventoryItemID w).1
          = some ("failed to update inventory tracking: " ++ firstError.Message)) := by
  obtain ⟨hbuild, hlen, _⟩ := lookup_ok_sent P .background client _ w0 w0' flagProduct hlookup
  -- the lookup is the same in both runs
  have hlookup' : findProductByHandle { P with roundTrip := rt } .background client
      "the-videographer-snowboard" w0 = (.ok flagProduct, w0') := by
    rw [findProductByHandle_congr P rt .background client _ w0
      (fun r => honly _ r (by omega)), hlookup]
  have hcap := captureTheFlag_after_lookup P client w0 w0' flagProduct hlookup
  have hcap' := captureTheFlag_after_lookup { P with roundTrip := rt } client w0 w0'
    flagProduct hlookup'
  -- the worlds the two mutation steps leave
  have hm := mutateStep_world P .background client flagProduct
    (w0'.printf ("Found flag product: " ++ flagProduct.Title ++ "\n"))
  have hm' := mutateStep_world { P with roundTrip := rt } .background client flagProduct
    (w0'.printf ("Found flag product: " ++ flagProduct.Title ++ "\n"))
  have hreq : client.requestsOf { P with roundTrip := rt } .background inventoryMutation
      (mutationVariables flagProduct.InventoryItemID)
      = client.requestsOf P .background inventoryMutation
          (mutationVariables flagProduct.InventoryItemID) := rfl
  have hreqS : client.requestsOf { P with roundTrip := rt } .background ordersQuery
      (ordersVariables client.config.UserEmail)
      = client.requestsOf P .background ordersQuery
          (ordersVariables client.config.UserEmail) := rfl
  rw [hreq] at hm'
  -- the search of the second run is answered as in the first
  have hsearch' : findFlagOrders { P with roundTrip := rt } .background client
      flagProduct.VariantID client.config.UserEmail
      (mutateStep { P with roundTrip := rt } .background client flagProduct
        (w0'.printf ("Found flag product: " ++ flagProduct.Title ++ "\n")))
      = findFlagOrders P .background client flagProduct.VariantID client.config.UserEmail
          (mutateStep { P with roundTrip := rt } .background client flagProduct
            (w0'.printf ("Found flag product: " ++ flagProduct.Title ++ "\n"))) := by
    apply findFlagOrders_congr
    intro r _
    cases hmarshal : P.jsonMarshal ⟨inventoryMutation,
        mutationVariables flagProduct.InventoryItemID⟩ with
    | error e => exact hserial e hmarshal _ _
    | ok body =>
      apply honly
      rw [hm']
      simp [Client.requestsOf, hmarshal, hbuild, World.printf]
  obtain ⟨lines, hframe⟩ := findFlagOrders_frame P .background client flagProduct.VariantID
    client.config.UserEmail (mutateStep P .background client flagProduct
      (w0'.printf ("Found flag product: " ++ flagProduct.Title ++ "\n")))
  have hrun := hframe _ rfl
  have hrun' := hframe (mutateStep { P with roundTrip := rt } .background client flagProduct
      (w0'.printf ("Found flag product: " ++ flagProduct.Title ++ "\n")))
    (by rw [hm, hm'])
  rw [hsearch', hrun'] at hcap'
  clear hsearch' hrun'
  generalize hres : (findFlagOrders P .background client flagProduct.VariantID
      client.config.UserEmail (mutateStep P .background client flagProduct
        (w0'.printf ("Found flag product: " ++ flagProduct.Title ++ "\n")))).1 = res
    at hrun hcap'
  have hfin : CaptureTheFlag P client w0
      = (none,
         ⟨w0'.sent ++ client.requestsOf P .background inventoryMutation
              (mutationVariables flagProduct.InventoryItemID)
            ++ client.requestsOf P .background ordersQuery
              (ordersVariables client.config.UserEmail),
          w0'.stdout ++ ["Found flag product: " ++ flagProduct.Title ++ "\n",
            mutationLine (disableInventoryTracking P .background client
              flagProduct.InventoryItemID
              (w0'.printf ("Found flag product: " ++ flagProduct.Title ++ "\n"))).1]
            ++ (lines ++ res.elim [] (fallbackLines client.config)),
          w0'.csvFile, w0'.fileText⟩) := by
    refine hcap.trans ?_
    rw [hm] at hrun
    simp only [hm, hrun]
    cases res <;> simp [World.printf]
  have hfin' : CaptureTheFlag { P with roundTrip := rt } client w0
      = (none,
         ⟨w0'.sent ++ client.requestsOf P .background inventoryMutation
              (mutationVariables flagProduct.InventoryItemID)
            ++ client.requestsOf P .background ordersQuery
              (ordersVariables client.config.UserEmail),
          w0'.stdout ++ ["Found flag product: " ++ flagProduct.Title ++ "\n",
            mutationLine (disableInventoryTracking { P with roundTrip := rt } .background client
              flagProduct.InventoryItemID
              (w0'.printf ("Found flag product: " ++ flagProduct.Title ++ "\n"))).1]
            ++ (lines ++ res.elim [] (fallbackLines client.config)),
          w0'.csvFile, w0'.fileText⟩) := by
    refine hcap'.trans ?_
    simp only [hm']
    cases res <;> simp [World.printf]
  refine ⟨lines ++ res.elim [] (fallbackLines client.config), hcap, ?_, ?_, ?_, ?_, ?_, ?_, ?_⟩
  · exact congrArg Prod.fst hfin
  · exact congrArg Prod.fst hfin'
  · exact congrArg (fun x => x.2.sent) hfin
  · exact (congrArg (fun x => x.2.sent) hfin').trans (congrArg (fun x => x.2.sent) hfin).symm
  · exact congrArg (fun x => x.2.stdout) hfin
  · exact congrArg (fun x => x.2.stdout) hfin'
  · intro w w1 response result firstError others hq hd he
    simp [disableInventoryTracking, hq, hd, he]

theorem acceptingRoundTrip_differs_only_after_lookup (h : List HttpRequest) (r : HttpRequest)
    (hlen : h.length ≠ 1) :
    acceptingRoundTrip h r = fixtureUserErrors.platform.roundTrip h r := by
  match h, hlen with
  | [], _ => rfl
  | [_], hlen => exact absurd rfl hlen
  | [_, _], _ => rfl
  | _ :: _ :: _ :: _, _ => rfl

/-- Concrete run for C9: the mutation is answered with user errors in one run and accepted in
the other; both runs return nil and print the success marker, and the warning carries the
first user error's message. -/
theorem mutation_outcome_is_not_fatal_witness :
    (∀ h r, h.length ≠ 1 →
      acceptingRoundTrip h r = fixtureUserErrors.platform.roundTrip h r) ∧
    (∃ rest : List String,
      (CaptureTheFlag fixtureUserErrors.platform sampleClient World.init).2.stdout
        = ["Found flag product: The Videographer Snowboard\n",
           "Warning: Failed to disable inventory tracking: "
             ++ "failed to update inventory tracking: Inventory item not found\n"] ++ rest ∧
      (CaptureTheFlag { fixtureUserErrors.platform with roundTrip := acceptingRoundTrip }
          sampleClient World.init).2.stdout
        = ["Found flag product: The Videographer Snowboard\n",
           "Inventory tracking disabled\n"] ++ rest) ∧
    (CaptureTheFlag fixtureUserErrors.platform sampleClient World.init).1 = none ∧
    (CaptureTheFlag fixtureUserErrors.platform sampleClient World.init).2.stdout
      = ["Found flag product: The Videographer Snowboard\n",
         "Warning: Failed to disable inventory tracking: "
           ++ "failed to update inventory tracking: Inventory item not found\n",
         "FLAG CAPTURED! Found order #1002 with flag product!\n"] :=
  ⟨acceptingRoundTrip_differs_only_after_lookup,
   (let ⟨rest, _, _, _, _, _, hout, hout', _⟩ :=
      mutation_outcome_is_not_fatal fixtureUserErrors.platform acceptingRoundTrip sampleClient
        World.init _ sampleFlagProduct rfl acceptingRoundTrip_differs_only_after_lookup
        (fun _ he => Except.noConfusion he)
    ⟨rest, hout, hout'⟩),
   by decide, by decide⟩

/-! ### Reading back what the writer wrote -/

theorem LineOf.length_le {line input s : List Char} (h : LineOf line input s) :
    (line ++ input).length ≤ s.length := by
  obtain ⟨l, _, rfl, h | h⟩ := h
  · rw [h.1]; simp
  · rw [h]; simp

/-- A line whose text starts with a character that the reader does not treat specially
starts with that character. -/
theorem LineOf.cons {line input y : List Char} {c : Char} (h : LineOf line input (c :: y))
    (hlf : c ≠ csvLF) (hcr : ¬ (c = csvCR ∧ y.head? = some csvLF)) :
    ∃ line1, line = c :: line1 ∧ LineOf line1 input y := by
  obtain ⟨l, hl, rfl, h | h⟩ := h
  · obtain ⟨heq, hlast⟩ := h
    cases l with
    | nil =>
      simp at heq
      exact absurd heq.1 hlf
    | cons d l =>
      simp at heq
      obtain ⟨hd, heq⟩ := heq
      subst hd
      refine ⟨l ++ [csvLF], rfl, l, fun hm => hl (by simp [hm]), rfl, Or.inl ⟨heq, ?_⟩⟩
      cases l with
      | nil => simp
      | cons e l => simpa using hlast
  · cases l with
    | nil =>
      simp at h
      exact absurd ⟨h.1, by simp [h.2]⟩ hcr
    | cons d l =>
      simp at h
      obtain ⟨hd, heq⟩ := h
      subst hd
      exact ⟨l ++ [csvLF], rfl, l, fun hm => hl (by simp [hm]), rfl, Or.inr heq⟩

/-- The error of the deferred flush is not read: with the file created and every write
accepted, `exportToCSV` returns nil also when the flush fails, and nothing is then known of
the text of the file. -/
theorem exportToCSV_ignores_flush_error {F : Type} (P : Platform F)
    (customers : List (Customer F)) (filename : String) (w : World) (err : String)
    (hcreate : P.createErr filename = none)
    (hwrite : ∀ rows record, P.writeErr rows record = none)
    (hflush : P.flushErr (csvHeader :: recordsFrom P 0 customers) = some err) :
    (exportToCSV P customers filename w).1 = none ∧
    (exportToCSV P customers filename w).2.fileText = none := by
  constructor
  · simp [exportToCSV, hcreate, hwrite, exportLoop_ok P hwrite]
  · simp [exportToCSV, hcreate, hwrite, hflush, exportLoop_ok P hwrite, World.closeCSV,
      World.printf]

end Shopify
